import Mathlib

/-!
Verification of the contract-deployment script (`scripts/deploy.py`) and the
static-file server (`visualise.py`) of the data-marketplace repository.

The deploy script is embedded as a deterministic interpreter over an abstract
environment `Deploy.Env` describing what the outside world (the Ganache node
via the RPC client, and the `build/` directory) answers to each request the
script makes.  Running the script on an environment yields a trace of
observable events (console prints, file reads, transaction submissions, file
writes) together with a process outcome: `exited code` for an explicit
`exit()` / `exit(1)` call (a bare Python `exit()` exits with status 0),
`uncaught msg` for an unhandled exception (the interpreter exits non-zero
with a traceback), or `finished` for normal completion (status 0).
-/

namespace Deploy

/-- A constructor argument as passed by the script: a number (the initial
supply) or an address-like string (token address, deployer account). -/
inductive Arg
| num (n : Nat)
| addr (a : String)
deriving DecidableEq

/-- A transaction receipt as consumed by the script: `status` (0 = reverted),
the created contract address, and the block number. -/
structure Receipt where
  status : Nat
  contractAddress : String
  blockNumber : Nat
deriving DecidableEq

/-- Outcome of `send_transaction` followed by `wait_for_transaction_receipt`:
either some exception was raised along the way, or a receipt was mined. -/
inductive SubmitResult
| exn (msg : String)
| mined (txHash : String) (receipt : Receipt)
deriving DecidableEq

/-- Outcome of the `debug_traceTransaction` diagnostic request: the request
itself may raise, or it returns an object that may carry a `returnValue`
string and may carry an error message. -/
inductive TraceResult
| raises (msg : String)
| result (returnValue : Option String) (errorMessage : Option String)
deriving DecidableEq

/-- What the node answers for one attempted deployment (identified by contract
name and constructor arguments): the gas estimate (`none` models an exception
raised by `build_transaction` / `estimate_gas`), the submission outcome, and
the diagnostic trace answer used when the receipt is reverted. -/
structure DeploySpec where
  estimate : Option Nat
  submit : SubmitResult
  traceRes : TraceResult

/-- The external world of one run: node connectivity, the account list, a few
informational values, the contents of the `build/` directory (`none` models a
missing file, `abiParses` models whether `json.load` succeeds on the given
contents), the node answer for each deployment, and read-back call values. -/
structure Env where
  connected : Bool
  accounts : List String
  clientVersion : String
  blockNumber : Nat
  chainId : Nat
  abiFile : String → Option String
  abiParses : String → Bool
  binFile : String → Option String
  deploys : String → List Arg → DeploySpec
  callValue : String → String → Nat

/-- Observable actions of the script, in order of occurrence. -/
inductive Event
| print (msg : String)
| readAccounts
| checkConnected
| loadAbiAttempt (name : String)
| loadBinAttempt (name : String)
| estimateCall (name : String) (args : List Arg)
| submitTx (name : String) (args : List Arg) (gas : Nat)
| waitReceipt (name : String)
| traceCall (name : String)
| receiptOk (name : String) (address : String)
| contractCall (address : String) (method : String)
| sleep (secs : Nat)
| writeFile (path : String) (entries : List (String × String))
/-- The report of line 13 of `deploy.py`: printing `Error: Not connected to
Ganache. Please ensure ganache-cli is running.` inside the `is_connected()`
guard. -/
| notConnectedReport
deriving DecidableEq

/-- How the process ends.  `exited c` is an explicit `exit()` call with shell
status `c` (Python `exit()` with no argument exits with status 0, `exit(1)`
with status 1); `uncaught` is an unhandled exception (interpreter prints a
traceback and exits with a non-zero status); `finished` is normal
completion. -/
inductive Outcome
| exited (code : Nat)
| uncaught (msg : String)
| finished
deriving DecidableEq

/-- The full observable behaviour of one run. -/
structure RunResult where
  events : List Event
  outcome : Outcome
deriving DecidableEq

/-- Value of a hexadecimal digit character, `none` on a non-hex character
(where Python `bytes.fromhex` raises `ValueError`). -/
def hexDigitVal (c : Char) : Option Nat :=
  if 48 ≤ c.toNat ∧ c.toNat ≤ 57 then some (c.toNat - 48)
  else if 97 ≤ c.toNat ∧ c.toNat ≤ 102 then some (c.toNat - 87)
  else if 65 ≤ c.toNat ∧ c.toNat ≤ 70 then some (c.toNat - 55)
  else none

/-- Python `bytes.fromhex`: pairs of hex digits to bytes; `none` when the length is
odd or a character is not a hex digit. -/
def hexPairs : List Char → Option (List Nat)
| [] => some []
| [_] => none
| c1 :: c2 :: rest => do
    let hi ← hexDigitVal c1
    let lo ← hexDigitVal c2
    let tail ← hexPairs rest
    pure ((hi * 16 + lo) :: tail)

/-- Python `.strip(chr 0)`: remove NUL characters from both ends. -/
def stripNulChars (l : List Char) : List Char :=
  ((l.dropWhile (fun c => c == '\x00')).reverse.dropWhile (fun c => c == '\x00')).reverse

/-- The decode `bytes.fromhex(revert_data[10:]).decode(utf8, ignore).strip(chr 0)`:
drop the `0x` prefix and the 4-byte `Error(string)` selector, hex-decode,
keep the ASCII bytes (the `ignore` error mode drops undecodable bytes), and
strip NUL padding.  `none` models the `ValueError` raised on bad hex, which
the surrounding `try` block catches. -/
def decodeRevertPayload (s : String) : Option String :=
  (hexPairs (s.drop 10).data).map fun bytes =>
    String.mk (stripNulChars (bytes.filterMap fun b =>
      if b < 128 then some (Char.ofNat b) else none))

/-- The diagnostic block run on a reverted receipt (lines 78-90 of
`deploy.py`): request `debug_traceTransaction`; if the trace has a non-empty
`returnValue` starting with the `Error(string)` selector, decode and print the
revert reason, otherwise print the raw data; with no usable `returnValue`,
print the trace error message when present; any exception inside the block
(including the trace request itself and the hex decode) is caught and logged,
not propagated. -/
def traceDiagnostic (tr : TraceResult) : List Event :=
  match tr with
  | TraceResult.raises m =>
      [Event.print ("Could not trace transaction for revert reason: " ++ m)]
  | TraceResult.result rv errMsg =>
      match rv with
      | some s =>
          if s ≠ "" then
            if s.startsWith "0x08c379a0" then
              match decodeRevertPayload s with
              | some reason => [Event.print ("Ganache Revert Reason: " ++ reason)]
              | none =>
                  [Event.print
                    "Could not trace transaction for revert reason: ValueError from bytes.fromhex"]
            else [Event.print ("Ganache Raw Revert Data: " ++ s)]
          else
            match errMsg with
            | some m => [Event.print ("Ganache Error Message: " ++ m)]
            | none => []
      | none =>
          match errMsg with
          | some m => [Event.print ("Ganache Error Message: " ++ m)]
          | none => []

/-- The function `load_contract_artifact(contract_name)`: read and parse
`build/<name>.json`, then read `build/<name>.bin`; each failure prints an
ERROR message and calls bare `exit()` (modelled by the `none` result, which
the caller turns into `Outcome.exited 0`).  On success returns the ABI
contents and the stripped bytecode. -/
def loadArtifact (env : Env) (name : String) : List Event × Option (String × String) :=
  let e0 := [Event.print ("Attempting to load ABI for " ++ name),
             Event.loadAbiAttempt name]
  match env.abiFile name with
  | none =>
      (e0 ++ [Event.print ("ERROR: ABI file for " ++ name ++ " not found in build directory.")],
       none)
  | some contents =>
      if env.abiParses contents then
        let e1 := e0 ++ [Event.print ("SUCCESS: Loaded ABI for " ++ name ++ "."),
                         Event.print ("Attempting to load Bytecode for " ++ name),
                         Event.loadBinAttempt name]
        match env.binFile name with
        | none =>
            (e1 ++ [Event.print
                ("ERROR: Bytecode file for " ++ name ++ " not found in build directory.")],
             none)
        | some bin =>
            (e1 ++ [Event.print ("SUCCESS: Loaded bytecode for " ++ name ++ ".")],
             some (contents, bin.trim))
      else
        (e0 ++ [Event.print ("ERROR: Could not parse JSON for " ++ name ++ ".")], none)

/-- The FATAL ERROR print of the broad `except` clause in `deploy_contract`,
which is followed by `exit(1)`. -/
def fatalPrint (details : String) : Event :=
  Event.print ("FATAL ERROR: Failed to deploy contract. Details: " ++ details)

/-- The function `deploy_contract(contract_name, abi, bytecode, args)`: build the creation
transaction and estimate gas (an exception here is caught by the broad
`except` and leads to `exit(1)`); set the gas limit to the estimate plus the
fixed 100000 buffer; submit and wait for the receipt; on a reverted receipt
(status 0) run the diagnostic block and then raise, which the broad `except`
turns into `exit(1)`; on success return the new contract address.  A `none`
result models `exit(1)`. -/
def deployContract (env : Env) (name : String) (args : List Arg) :
    List Event × Option String :=
  let spec := env.deploys name args
  let e0 := [Event.print ("Attempting to deploy contract " ++ name),
             Event.estimateCall name args]
  match spec.estimate with
  | none => (e0 ++ [fatalPrint "exception while building or estimating the transaction"], none)
  | some g =>
      let e1 := e0 ++ [Event.print ("Estimated gas for deployment: " ++ Nat.repr g ++
                                    ". Using " ++ Nat.repr (g + 100000) ++ " gas."),
                       Event.submitTx name args (g + 100000)]
      match spec.submit with
      | SubmitResult.exn m => (e1 ++ [fatalPrint m], none)
      | SubmitResult.mined txh r =>
          let e2 := e1 ++ [Event.print ("Deployment transaction sent. Hash: " ++ txh),
                           Event.waitReceipt name]
          if r.status = 0 then
            (e2 ++ [Event.print ("ERROR: Contract deployment transaction reverted. Hash: " ++ txh),
                    Event.traceCall name]
                ++ traceDiagnostic spec.traceRes
                ++ [fatalPrint "Contract deployment failed due to revert."],
             none)
          else
            (e2 ++ [Event.receiptOk name r.contractAddress], some r.contractAddress)

/-- The quantity `initial_supply = 1_000_000 * (10**18)` from line 106 of `deploy.py`. -/
def initial_supply : Nat := 1000000 * 10 ^ 18

/-- Events of the module-level banner prints once the account read succeeded
(lines 11, 15-18 of `deploy.py`). -/
def initEvents (env : Env) (a : String) : List Event :=
  [Event.readAccounts,
   Event.print "Connecting to Ganache at http://127.0.0.1:8545...",
   Event.checkConnected,
   Event.print ("Successfully connected to Ganache. Client version: " ++ env.clientVersion),
   Event.print ("Using deployer account: " ++ a),
   Event.print ("Current block number: " ++ Nat.repr env.blockNumber),
   Event.print ("Chain ID: " ++ Nat.repr env.chainId)]

/-- Module-level initialisation (lines 7-18 of `deploy.py`).  Line 10 reads
`w3.eth.accounts[0]` BEFORE the `is_connected()` check of line 12: when the
node is unreachable this raises an unhandled exception (here an error
`Outcome.uncaught`), and when the account list is empty it raises
`IndexError`.  Only then line 12 checks `is_connected()`; its error branch
prints and calls bare `exit()` (status 0).  Within one run connectivity is a
single fact of the environment, so that branch requires `env.connected` to be
both true (to get past line 10) and false (to enter the branch). -/
def scriptInit (env : Env) : List Event × Except Outcome String :=
  if env.connected then
    match env.accounts with
    | [] => ([Event.readAccounts], Except.error (Outcome.uncaught "IndexError: accounts list empty"))
    | a :: _ =>
        if env.connected then (initEvents env a, Except.ok a)
        else
          ([Event.readAccounts,
            Event.print "Connecting to Ganache at http://127.0.0.1:8545...",
            Event.checkConnected,
            Event.notConnectedReport],
           Except.error (Outcome.exited 0))
  else
    ([Event.readAccounts], Except.error (Outcome.uncaught "ConnectionError: node unreachable"))

/-- Read-back calls after the token deployment (lines 109-111). -/
def postTokenCalls (tokenAddr : String) : List Event :=
  [Event.contractCall tokenAddr "totalSupply",
   Event.contractCall tokenAddr "balanceOf",
   Event.sleep 1]

/-- Read-back call after the DataReview deployment (lines 121-122). -/
def postReviewCalls (reviewAddr : String) : List Event :=
  [Event.contractCall reviewAddr "owner", Event.sleep 1]

/-- Read-back call after the DataBundle deployment, the closing banner, and
the write of `contract_addresses.json` (lines 131-147).  The file is opened
in mode `w`, which truncates: the write replaces any prior content. -/
def postBundleEvents (tokenAddr reviewAddr bundleAddr : String) : List Event :=
  [Event.contractCall bundleAddr "owner",
   Event.sleep 1,
   Event.writeFile "contract_addresses.json"
     [("MyToken", tokenAddr), ("DataReview", reviewAddr), ("DataBundle", bundleAddr)]]

/-- The function `main()` (lines 100-148): load and deploy MyToken with the single numeric
argument `initial_supply`; read back supply and balance; load and deploy
DataReview with the token address and the deployer account; read back the
owner; the same for DataBundle; finally write the three addresses to
`contract_addresses.json`.  A failed artifact load is `exit()` (status 0); a
failed deployment is `exit(1)`. -/
def mainRun (env : Env) (sender : String) : List Event × Outcome :=
  match loadArtifact env "MyToken" with
  | (e1, none) => (e1, Outcome.exited 0)
  | (e1, some _) =>
    match deployContract env "MyToken" [Arg.num initial_supply] with
    | (e2, none) => (e1 ++ e2, Outcome.exited 1)
    | (e2, some tokenAddr) =>
      match loadArtifact env "DataReview" with
      | (e4, none) => (e1 ++ e2 ++ postTokenCalls tokenAddr ++ e4, Outcome.exited 0)
      | (e4, some _) =>
        match deployContract env "DataReview" [Arg.addr tokenAddr, Arg.addr sender] with
        | (e5, none) =>
            (e1 ++ e2 ++ postTokenCalls tokenAddr ++ e4 ++ e5, Outcome.exited 1)
        | (e5, some reviewAddr) =>
          match loadArtifact env "DataBundle" with
          | (e7, none) =>
              (e1 ++ e2 ++ postTokenCalls tokenAddr ++ e4 ++ e5 ++
                 postReviewCalls reviewAddr ++ e7, Outcome.exited 0)
          | (e7, some _) =>
            match deployContract env "DataBundle" [Arg.addr tokenAddr, Arg.addr sender] with
            | (e8, none) =>
                (e1 ++ e2 ++ postTokenCalls tokenAddr ++ e4 ++ e5 ++
                   postReviewCalls reviewAddr ++ e7 ++ e8, Outcome.exited 1)
            | (e8, some bundleAddr) =>
                (e1 ++ e2 ++ postTokenCalls tokenAddr ++ e4 ++ e5 ++
                   postReviewCalls reviewAddr ++ e7 ++ e8 ++
                   postBundleEvents tokenAddr reviewAddr bundleAddr,
                 Outcome.finished)

/-- The whole script: module-level initialisation, then `main()`. -/
def runScript (env : Env) : RunResult :=
  match scriptInit env with
  | (evs, Except.error out) => ⟨evs, out⟩
  | (evs, Except.ok sender) =>
      match mainRun env sender with
      | (evs2, out) => ⟨evs ++ evs2, out⟩

/-- Events that are deployment submissions or success confirmations. -/
def isDeployEvent : Event → Bool
| Event.submitTx _ _ _ => true
| Event.receiptOk _ _ => true
| _ => false

/-- The contract name an event is about, if any. -/
def eventContract : Event → Option String
| Event.loadAbiAttempt n => some n
| Event.loadBinAttempt n => some n
| Event.estimateCall n _ => some n
| Event.submitTx n _ _ => some n
| Event.waitReceipt n => some n
| Event.traceCall n => some n
| Event.receiptOk n _ => some n
| _ => none

/-- The contract name of a network interaction (gas estimation, transaction
submission, receipt wait, diagnostic trace), if the event is one. -/
def networkContract : Event → Option String
| Event.estimateCall n _ => some n
| Event.submitTx n _ _ => some n
| Event.waitReceipt n => some n
| Event.traceCall n => some n
| _ => none

/-- The entry list of a file-write event, if the event is one. -/
def writeEntriesOf : Event → Option (List (String × String))
| Event.writeFile _ entries => some entries
| _ => none

/-- The address of a deployment confirmation, if the event is one. -/
def receiptAddrOf : Event → Option String
| Event.receiptOk _ a => some a
| _ => none

/-- The submissions and confirmations of a run, in order. -/
def deployLog (r : RunResult) : List Event := r.events.filter isDeployEvent

/-- The contents of the file writes of a run, in order. -/
def writeLog (r : RunResult) : List (List (String × String)) :=
  r.events.filterMap writeEntriesOf

/-- The addresses of the confirmed deployments of a run, in order. -/
def deployedAddresses (r : RunResult) : List String :=
  r.events.filterMap receiptAddrOf

/-- A healthy world: node up, artifacts present and well-formed, every
deployment mined successfully at an address derived from the name. -/
def goodEnv : Env where
  connected := true
  accounts := ["0xdeployer", "0xother"]
  clientVersion := "Ganache/7"
  blockNumber := 0
  chainId := 1337
  abiFile := fun _ => some "[]"
  abiParses := fun _ => true
  binFile := fun _ => some "6080 "
  deploys := fun name _ =>
    { estimate := some 50000
    , submit := SubmitResult.mined "0xhash"
        { status := 1, contractAddress := "0xA" ++ name, blockNumber := 1 }
    , traceRes := TraceResult.result none none }
  callValue := fun _ _ => 0

/-- A second healthy world whose node hands out different (fresh) contract
addresses, as a chain does on a re-run (the creation address depends on the
strictly increasing account nonce). -/
def goodEnv2 : Env where
  connected := true
  accounts := ["0xdeployer", "0xother"]
  clientVersion := "Ganache/7"
  blockNumber := 9
  chainId := 1337
  abiFile := fun _ => some "[]"
  abiParses := fun _ => true
  binFile := fun _ => some "6080 "
  deploys := fun name _ =>
    { estimate := some 50000
    , submit := SubmitResult.mined "0xhash2"
        { status := 1, contractAddress := "0xB" ++ name, blockNumber := 11 }
    , traceRes := TraceResult.result none none }
  callValue := fun _ _ => 0

/-- A world where the node is up but the `build/` directory is empty: every
ABI file is missing. -/
def missingAbiEnv : Env where
  connected := true
  accounts := ["0xdeployer"]
  clientVersion := "Ganache/7"
  blockNumber := 0
  chainId := 1337
  abiFile := fun _ => none
  abiParses := fun _ => false
  binFile := fun _ => none
  deploys := fun _ _ =>
    { estimate := none
    , submit := SubmitResult.exn "unused"
    , traceRes := TraceResult.result none none }
  callValue := fun _ _ => 0

/-- A world where the MyToken deployment transaction is mined but reverts,
and the diagnostic trace returns an `Error(string)` payload (the string is
the single character A). -/
def revertEnv : Env where
  connected := true
  accounts := ["0xdeployer"]
  clientVersion := "Ganache/7"
  blockNumber := 0
  chainId := 1337
  abiFile := fun _ => some "[]"
  abiParses := fun _ => true
  binFile := fun _ => some "6080 "
  deploys := fun _ _ =>
    { estimate := some 30000
    , submit := SubmitResult.mined "0xdead"
        { status := 0, contractAddress := "", blockNumber := 2 }
    , traceRes := TraceResult.result (some "0x08c379a041") none }
  callValue := fun _ _ => 0

/-- A world where the node is unreachable. -/
def disconnectedEnv : Env where
  connected := false
  accounts := []
  clientVersion := ""
  blockNumber := 0
  chainId := 0
  abiFile := fun _ => none
  abiParses := fun _ => false
  binFile := fun _ => none
  deploys := fun _ _ =>
    { estimate := none
    , submit := SubmitResult.exn "unused"
    , traceRes := TraceResult.result none none }
  callValue := fun _ _ => 0

end Deploy

namespace Visualise

/-- The constant `STATIC_DIR = "visualisation"` from `visualise.py`. -/
def STATIC_DIR : String := "visualisation"

/-- The data of a FastAPI `FileResponse`: the filesystem path and the media
type when one is given explicitly. -/
structure FileResponseData where
  path : String
  mediaType : Option String
deriving DecidableEq

/-- A registered route of the application: a `StaticFiles` mount serving a
directory under a URL prefix, or a plain GET route returning a fixed file
response. -/
inductive RouteSpec
| mountStatic (urlPath : String) (directory : String) (mountName : String)
| getRoute (urlPath : String) (response : FileResponseData)
deriving DecidableEq

/-- The handler `read_root()`: a `FileResponse` for `STATIC_DIR/marketplace_visualiser.html`
with media type `text/html`. -/
def read_root : FileResponseData :=
  ⟨STATIC_DIR ++ "/" ++ "marketplace_visualiser.html", some "text/html"⟩

/-- The routes registered on the `FastAPI()` application, in registration
order: the `app.mount` of `/visualisation` onto `STATIC_DIR`, and the
`@app.get` of `/` returning `read_root`.  Nothing else is registered. -/
def appRoutes : List RouteSpec :=
  [RouteSpec.mountStatic "/visualisation" STATIC_DIR "visualisation",
   RouteSpec.getRoute "/" read_root]

/-- Result of dispatching a GET request: a file response or a 404. -/
inductive HttpResult
| fileResp (f : FileResponseData)
| notFound
deriving DecidableEq

/-- The subpath of `p` under the mount prefix `url`: the characters after
`url` and the following slash. -/
def subPathAfter (url p : String) : String :=
  String.mk (p.data.drop (url.data.length + 1))

/-- Whether one route answers the GET request for path `p`: a static mount
answers every path strictly under its prefix with the corresponding file of
its directory (no explicit media type — it is inferred from the file); a GET
route answers exactly its own path with its response. -/
def routeMatches (p : String) : RouteSpec → Option HttpResult
| RouteSpec.mountStatic url dir _ =>
    if (url.data ++ ['/']).isPrefixOf p.data then
      some (HttpResult.fileResp ⟨dir ++ "/" ++ subPathAfter url p, none⟩)
    else none
| RouteSpec.getRoute url resp =>
    if p = url then some (HttpResult.fileResp resp) else none

/-- First-match dispatch over a route list: the first route answering the
request wins, a 404 results when none does. -/
def dispatch : List RouteSpec → String → HttpResult
| [], _ => HttpResult.notFound
| r :: rs, p =>
    match routeMatches p r with
    | some res => res
    | none => dispatch rs p

/-- Dispatch of a GET request over the registered routes of the app. -/
def handleRequest (p : String) : HttpResult :=
  dispatch appRoutes p

end Visualise

/-!
Helper lemmas characterising the interpreter, shared by the claim theorems.
-/

namespace Deploy

/-- Every event of the diagnostic block is a console print. -/
lemma traceDiagnostic_mem_print (tr : TraceResult) (e : Event)
    (he : e ∈ traceDiagnostic tr) : ∃ s, e = Event.print s := by
  rcases tr with m | ⟨rv, errMsg⟩
  · simp [traceDiagnostic] at he; exact ⟨_, he⟩
  · rcases rv with _ | s
    · rcases errMsg with _ | m
      · simp [traceDiagnostic] at he
      · simp [traceDiagnostic] at he; exact ⟨_, he⟩
    · by_cases hs : s = ""
      · subst hs
        rcases errMsg with _ | m
        · simp [traceDiagnostic] at he
        · simp [traceDiagnostic] at he; exact ⟨_, he⟩
      · by_cases hsw : s.startsWith "0x08c379a0"
        · rcases hd : decodeRevertPayload s with _ | reason
          · simp [traceDiagnostic, hs, hsw, hd] at he; exact ⟨_, he⟩
          · simp [traceDiagnostic, hs, hsw, hd] at he; exact ⟨_, he⟩
        · simp [traceDiagnostic, hs, hsw] at he; exact ⟨_, he⟩

/-- Every event of an artifact load is the ABI read attempt, the bytecode
read attempt, or a console print. -/
lemma loadArtifact_mem (env : Env) (n : String) (e : Event)
    (he : e ∈ (loadArtifact env n).1) :
    e = Event.loadAbiAttempt n ∨ e = Event.loadBinAttempt n ∨ ∃ s, e = Event.print s := by
  rcases ha : env.abiFile n with _ | c
  · simp [loadArtifact, ha] at he
    rcases he with h | h | h <;> simp [h]
  · by_cases hp : env.abiParses c = true
    · rcases hb : env.binFile n with _ | b
      · simp [loadArtifact, ha, hp, hb] at he
        rcases he with h | h | h | h | h | h <;> simp [h]
      · simp [loadArtifact, ha, hp, hb] at he
        rcases he with h | h | h | h | h | h <;> simp [h]
    · simp [loadArtifact, ha, hp] at he
      rcases he with h | h | h <;> simp [h]

/-- Every event of a deployment attempt concerns the deployed contract (or is
a console print). -/
lemma deployContract_mem (env : Env) (n : String) (args : List Arg) (e : Event)
    (he : e ∈ (deployContract env n args).1) :
    (∃ s, e = Event.print s) ∨ e = Event.estimateCall n args ∨
    (∃ G, e = Event.submitTx n args G) ∨ e = Event.waitReceipt n ∨
    e = Event.traceCall n ∨ ∃ a, e = Event.receiptOk n a := by
  rcases hg : (env.deploys n args).estimate with _ | g
  · simp [deployContract, fatalPrint, hg] at he
    rcases he with h | h | h <;> simp [h]
  · rcases hsub : (env.deploys n args).submit with m | ⟨txh, r⟩
    · simp [deployContract, fatalPrint, hg, hsub] at he
      rcases he with h | h | h | h | h <;> simp [h]
    · by_cases h0 : r.status = 0
      · simp [deployContract, fatalPrint, hg, hsub, h0] at he
        rcases he with h | h | h | h | h | h | h | h | h | h
        · simp [h]
        · simp [h]
        · simp [h]
        · simp [h]
        · simp [h]
        · simp [h]
        · simp [h]
        · simp [h]
        · rcases traceDiagnostic_mem_print _ _ h with ⟨s, rfl⟩; simp
        · simp [h]
      · simp [deployContract, fatalPrint, hg, hsub, h0] at he
        rcases he with h | h | h | h | h | h | h <;> simp [h]

/-- Every event of the module-level banner is the account read, the
connectivity check, or a console print. -/
lemma initEvents_mem (env : Env) (a : String) (e : Event)
    (he : e ∈ initEvents env a) :
    e = Event.readAccounts ∨ e = Event.checkConnected ∨ ∃ s, e = Event.print s := by
  simp [initEvents] at he
  rcases he with h | h | h | h | h | h | h <;> simp [h]

end Deploy

namespace Deploy

/-- A successful artifact load pins the environment answers and the emitted
events: both files present, the descriptor parses, and exactly one read
attempt per file occurs. -/
lemma loadArtifact_some_char (env : Env) (n : String) (l : List Event)
    (ab : String × String) (h : loadArtifact env n = (l, some ab)) :
    ∃ c b, env.abiFile n = some c ∧ env.abiParses c = true ∧ env.binFile n = some b ∧
      ab = (c, b.trim) ∧
      l = [Event.print ("Attempting to load ABI for " ++ n),
           Event.loadAbiAttempt n,
           Event.print ("SUCCESS: Loaded ABI for " ++ n ++ "."),
           Event.print ("Attempting to load Bytecode for " ++ n),
           Event.loadBinAttempt n,
           Event.print ("SUCCESS: Loaded bytecode for " ++ n ++ ".")] := by
  rcases ha : env.abiFile n with _ | c
  · simp [loadArtifact, ha] at h
  · by_cases hp : env.abiParses c = true
    · rcases hb : env.binFile n with _ | b
      · simp [loadArtifact, ha, hp, hb] at h
      · have hcomp : loadArtifact env n =
            ([Event.print ("Attempting to load ABI for " ++ n),
              Event.loadAbiAttempt n,
              Event.print ("SUCCESS: Loaded ABI for " ++ n ++ "."),
              Event.print ("Attempting to load Bytecode for " ++ n),
              Event.loadBinAttempt n,
              Event.print ("SUCCESS: Loaded bytecode for " ++ n ++ ".")],
             some (c, b.trim)) := by
          simp [loadArtifact, ha, hp, hb]
        have h' := hcomp.symm.trans h
        injection h' with h1 h2
        injection h2 with h3
        exact ⟨c, b, rfl, hp, rfl, h3.symm, h1.symm⟩
    · simp [loadArtifact, ha, hp] at h

/-- A successful deployment pins the environment answers and the emitted
events: gas was estimated, the transaction was submitted with the estimate
plus the 100000 buffer, and the mined receipt has a non-reverted status whose
contract address is the returned one. -/
lemma deployContract_some_char (env : Env) (n : String) (args : List Arg)
    (l : List Event) (addr : String) (h : deployContract env n args = (l, some addr)) :
    ∃ g txh r,
      (env.deploys n args).estimate = some g ∧
      (env.deploys n args).submit = SubmitResult.mined txh r ∧
      r.status ≠ 0 ∧ r.contractAddress = addr ∧
      l = [Event.print ("Attempting to deploy contract " ++ n),
           Event.estimateCall n args,
           Event.print ("Estimated gas for deployment: " ++ Nat.repr g ++
                        ". Using " ++ Nat.repr (g + 100000) ++ " gas."),
           Event.submitTx n args (g + 100000),
           Event.print ("Deployment transaction sent. Hash: " ++ txh),
           Event.waitReceipt n,
           Event.receiptOk n addr] := by
  rcases hg : (env.deploys n args).estimate with _ | g
  · simp [deployContract, fatalPrint, hg] at h
  · rcases hsub : (env.deploys n args).submit with m | ⟨txh, r⟩
    · simp [deployContract, fatalPrint, hg, hsub] at h
    · by_cases h0 : r.status = 0
      · simp [deployContract, fatalPrint, hg, hsub, h0] at h
      · have hcomp : deployContract env n args =
            ([Event.print ("Attempting to deploy contract " ++ n),
              Event.estimateCall n args,
              Event.print ("Estimated gas for deployment: " ++ Nat.repr g ++
                           ". Using " ++ Nat.repr (g + 100000) ++ " gas."),
              Event.submitTx n args (g + 100000),
              Event.print ("Deployment transaction sent. Hash: " ++ txh),
              Event.waitReceipt n,
              Event.receiptOk n r.contractAddress],
             some r.contractAddress) := by
          simp [deployContract, fatalPrint, hg, hsub, h0]
        have h' := hcomp.symm.trans h
        injection h' with h1 h2
        injection h2 with h3
        subst h3
        exact ⟨g, txh, r, rfl, rfl, h0, rfl, h1.symm⟩

end Deploy

namespace Deploy

/-- Exhaustive case analysis of one run of the script: the node is
unreachable, the account list is empty, or initialisation succeeds and the
run stops at the first failing stage of the fixed
MyToken / DataReview / DataBundle sequence (artifact-load failures exit with
status 0, deployment failures with status 1), or everything succeeds. -/
lemma runScript_cases (env : Env) :
    (env.connected = false ∧
       runScript env = ⟨[Event.readAccounts],
         Outcome.uncaught "ConnectionError: node unreachable"⟩) ∨
    (env.connected = true ∧ env.accounts = [] ∧
       runScript env = ⟨[Event.readAccounts],
         Outcome.uncaught "IndexError: accounts list empty"⟩) ∨
    (∃ a rest, env.connected = true ∧ env.accounts = a :: rest ∧
      ((∃ l1, loadArtifact env "MyToken" = (l1, none) ∧
          runScript env = ⟨initEvents env a ++ l1, Outcome.exited 0⟩) ∨
       (∃ l1 ab1 d1, loadArtifact env "MyToken" = (l1, some ab1) ∧
          deployContract env "MyToken" [Arg.num initial_supply] = (d1, none) ∧
          runScript env = ⟨initEvents env a ++ (l1 ++ d1), Outcome.exited 1⟩) ∨
       (∃ l1 ab1 d1 a1, loadArtifact env "MyToken" = (l1, some ab1) ∧
          deployContract env "MyToken" [Arg.num initial_supply] = (d1, some a1) ∧
          ((∃ l2, loadArtifact env "DataReview" = (l2, none) ∧
              runScript env = ⟨initEvents env a ++
                (l1 ++ d1 ++ postTokenCalls a1 ++ l2), Outcome.exited 0⟩) ∨
           (∃ l2 ab2 d2, loadArtifact env "DataReview" = (l2, some ab2) ∧
              deployContract env "DataReview" [Arg.addr a1, Arg.addr a] = (d2, none) ∧
              runScript env = ⟨initEvents env a ++
                (l1 ++ d1 ++ postTokenCalls a1 ++ l2 ++ d2), Outcome.exited 1⟩) ∨
           (∃ l2 ab2 d2 a2, loadArtifact env "DataReview" = (l2, some ab2) ∧
              deployContract env "DataReview" [Arg.addr a1, Arg.addr a] = (d2, some a2) ∧
              ((∃ l3, loadArtifact env "DataBundle" = (l3, none) ∧
                  runScript env = ⟨initEvents env a ++
                    (l1 ++ d1 ++ postTokenCalls a1 ++ l2 ++ d2 ++
                     postReviewCalls a2 ++ l3), Outcome.exited 0⟩) ∨
               (∃ l3 ab3 d3, loadArtifact env "DataBundle" = (l3, some ab3) ∧
                  deployContract env "DataBundle" [Arg.addr a1, Arg.addr a] = (d3, none) ∧
                  runScript env = ⟨initEvents env a ++
                    (l1 ++ d1 ++ postTokenCalls a1 ++ l2 ++ d2 ++
                     postReviewCalls a2 ++ l3 ++ d3), Outcome.exited 1⟩) ∨
               (∃ l3 ab3 d3 a3, loadArtifact env "DataBundle" = (l3, some ab3) ∧
                  deployContract env "DataBundle" [Arg.addr a1, Arg.addr a] = (d3, some a3) ∧
                  runScript env = ⟨initEvents env a ++
                    (l1 ++ d1 ++ postTokenCalls a1 ++ l2 ++ d2 ++
                     postReviewCalls a2 ++ l3 ++ d3 ++
                     postBundleEvents a1 a2 a3), Outcome.finished⟩))))))) := by
  by_cases hc : env.connected = true
  · rcases ha : env.accounts with _ | ⟨a, rest⟩
    · exact Or.inr (Or.inl ⟨hc, rfl, by simp [runScript, scriptInit, hc, ha]⟩)
    · refine Or.inr (Or.inr ⟨a, rest, hc, rfl, ?_⟩)
      rcases hl1 : loadArtifact env "MyToken" with ⟨l1, o1⟩
      rcases o1 with _ | ab1
      · exact Or.inl ⟨l1, rfl, by
          simp [runScript, scriptInit, mainRun, hc, ha, hl1]⟩
      · rcases hd1 : deployContract env "MyToken" [Arg.num initial_supply] with ⟨d1, r1⟩
        rcases r1 with _ | a1
        · exact Or.inr (Or.inl ⟨l1, ab1, d1, rfl, rfl, by
            simp [runScript, scriptInit, mainRun, hc, ha, hl1, hd1]⟩)
        · refine Or.inr (Or.inr ⟨l1, ab1, d1, a1, rfl, rfl, ?_⟩)
          rcases hl2 : loadArtifact env "DataReview" with ⟨l2, o2⟩
          rcases o2 with _ | ab2
          · exact Or.inl ⟨l2, rfl, by
              simp [runScript, scriptInit, mainRun, hc, ha, hl1, hd1, hl2,
                    List.append_assoc]⟩
          · rcases hd2 : deployContract env "DataReview" [Arg.addr a1, Arg.addr a]
              with ⟨d2, r2⟩
            rcases r2 with _ | a2
            · exact Or.inr (Or.inl ⟨l2, ab2, d2, rfl, rfl, by
                simp [runScript, scriptInit, mainRun, hc, ha, hl1, hd1, hl2, hd2,
                      List.append_assoc]⟩)
            · refine Or.inr (Or.inr ⟨l2, ab2, d2, a2, rfl, rfl, ?_⟩)
              rcases hl3 : loadArtifact env "DataBundle" with ⟨l3, o3⟩
              rcases o3 with _ | ab3
              · exact Or.inl ⟨l3, rfl, by
                  simp [runScript, scriptInit, mainRun, hc, ha, hl1, hd1, hl2, hd2, hl3,
                        List.append_assoc]⟩
              · rcases hd3 : deployContract env "DataBundle" [Arg.addr a1, Arg.addr a]
                  with ⟨d3, r3⟩
                rcases r3 with _ | a3
                · exact Or.inr (Or.inl ⟨l3, ab3, d3, rfl, rfl, by
                    simp [runScript, scriptInit, mainRun, hc, ha, hl1, hd1, hl2, hd2,
                          hl3, hd3, List.append_assoc]⟩)
                · exact Or.inr (Or.inr ⟨l3, ab3, d3, a3, rfl, rfl, by
                    simp [runScript, scriptInit, mainRun, hc, ha, hl1, hd1, hl2, hd2,
                          hl3, hd3, List.append_assoc]⟩)
  · have hc' : env.connected = false := by
      cases h : env.connected
      · rfl
      · exact absurd h hc
    exact Or.inl ⟨hc', by simp [runScript, scriptInit, hc']⟩

end Deploy

namespace Deploy

/-- Claim C1: in every successful run the three contracts are deployed in the
fixed order MyToken, DataReview, DataBundle: MyToken is submitted first with
the single numeric constructor argument 1000000 * 10^18, and each of
DataReview and DataBundle is submitted only after the success confirmation of
the MyToken receipt (the `receiptOk` entry preceding them in the ordered
deployment log), with the MyToken address and the sender account (the first
node account) as its two constructor arguments. -/
theorem claim1_deploy_order (env : Env)
    (h : (runScript env).outcome = Outcome.finished) :
    ∃ s a1 a2 a3 g1 g2 g3,
      env.accounts.head? = some s ∧
      deployLog (runScript env) =
        [Event.submitTx "MyToken" [Arg.num (1000000 * 10 ^ 18)] (g1 + 100000),
         Event.receiptOk "MyToken" a1,
         Event.submitTx "DataReview" [Arg.addr a1, Arg.addr s] (g2 + 100000),
         Event.receiptOk "DataReview" a2,
         Event.submitTx "DataBundle" [Arg.addr a1, Arg.addr s] (g3 + 100000),
         Event.receiptOk "DataBundle" a3] := by
  rcases runScript_cases env with ⟨hc, hrun⟩ | ⟨hc, ha, hrun⟩ |
    ⟨a, rest, hc, ha, hcase⟩
  · rw [hrun] at h; simp at h
  · rw [hrun] at h; simp at h
  rcases hcase with ⟨l1, hl1, hrun⟩ | ⟨l1, ab1, d1, hl1, hd1, hrun⟩ |
    ⟨l1, ab1, d1, a1, hl1, hd1, hcase⟩
  · rw [hrun] at h; simp at h
  · rw [hrun] at h; simp at h
  rcases hcase with ⟨l2, hl2, hrun⟩ | ⟨l2, ab2, d2, hl2, hd2, hrun⟩ |
    ⟨l2, ab2, d2, a2, hl2, hd2, hcase⟩
  · rw [hrun] at h; simp at h
  · rw [hrun] at h; simp at h
  rcases hcase with ⟨l3, hl3, hrun⟩ | ⟨l3, ab3, d3, hl3, hd3, hrun⟩ |
    ⟨l3, ab3, d3, a3, hl3, hd3, hrun⟩
  · rw [hrun] at h; simp at h
  · rw [hrun] at h; simp at h
  obtain ⟨c1, b1, -, -, -, -, hl1e⟩ := loadArtifact_some_char env _ _ _ hl1
  obtain ⟨c2, b2, -, -, -, -, hl2e⟩ := loadArtifact_some_char env _ _ _ hl2
  obtain ⟨c3, b3, -, -, -, -, hl3e⟩ := loadArtifact_some_char env _ _ _ hl3
  obtain ⟨g1, t1, r1, -, -, -, -, hd1e⟩ := deployContract_some_char env _ _ _ _ hd1
  obtain ⟨g2, t2, r2, -, -, -, -, hd2e⟩ := deployContract_some_char env _ _ _ _ hd2
  obtain ⟨g3, t3, r3, -, -, -, -, hd3e⟩ := deployContract_some_char env _ _ _ _ hd3
  refine ⟨a, a1, a2, a3, g1, g2, g3, by rw [ha]; rfl, ?_⟩
  rw [hrun]
  subst hl1e hl2e hl3e hd1e hd2e hd3e
  simp [deployLog, isDeployEvent, initEvents, postTokenCalls, postReviewCalls,
        postBundleEvents, initial_supply, List.filter_append]

/-- Concrete witness for C1: the healthy environment completes, and its
deployment log has the stated shape. -/
theorem claim1_witness :
    (runScript goodEnv).outcome = Outcome.finished ∧
    (∃ s a1 a2 a3 g1 g2 g3,
      goodEnv.accounts.head? = some s ∧
      deployLog (runScript goodEnv) =
        [Event.submitTx "MyToken" [Arg.num (1000000 * 10 ^ 18)] (g1 + 100000),
         Event.receiptOk "MyToken" a1,
         Event.submitTx "DataReview" [Arg.addr a1, Arg.addr s] (g2 + 100000),
         Event.receiptOk "DataReview" a2,
         Event.submitTx "DataBundle" [Arg.addr a1, Arg.addr s] (g3 + 100000),
         Event.receiptOk "DataBundle" a3]) :=
  ⟨rfl, claim1_deploy_order goodEnv rfl⟩

end Deploy

namespace Deploy

/-- An artifact load writes no file. -/
lemma loadArtifact_writeMap (env : Env) (n : String) :
    ((loadArtifact env n).1).filterMap writeEntriesOf = [] :=
  List.filterMap_eq_nil_iff.mpr fun e he => by
    rcases loadArtifact_mem env n e he with h | h | ⟨s, h⟩ <;> subst h <;> rfl

/-- A deployment attempt writes no file. -/
lemma deployContract_writeMap (env : Env) (n : String) (args : List Arg) :
    ((deployContract env n args).1).filterMap writeEntriesOf = [] :=
  List.filterMap_eq_nil_iff.mpr fun e he => by
    rcases deployContract_mem env n args e he with ⟨s, h⟩ | h | ⟨G, h⟩ | h | h | ⟨a, h⟩ <;>
      subst h <;> rfl

/-- The module-level banner writes no file. -/
lemma initEvents_writeMap (env : Env) (a : String) :
    (initEvents env a).filterMap writeEntriesOf = [] := by
  simp [initEvents, writeEntriesOf]

/-- An artifact load confirms no deployment. -/
lemma loadArtifact_receiptMap (env : Env) (n : String) :
    ((loadArtifact env n).1).filterMap receiptAddrOf = [] :=
  List.filterMap_eq_nil_iff.mpr fun e he => by
    rcases loadArtifact_mem env n e he with h | h | ⟨s, h⟩ <;> subst h <;> rfl

/-- The module-level banner confirms no deployment. -/
lemma initEvents_receiptMap (env : Env) (a : String) :
    (initEvents env a).filterMap receiptAddrOf = [] := by
  simp [initEvents, receiptAddrOf]

/-- A successful deployment attempt confirms exactly its own address. -/
lemma deployContract_receiptMap_some (env : Env) (n : String) (args : List Arg)
    (l : List Event) (addr : String)
    (h : deployContract env n args = (l, some addr)) :
    l.filterMap receiptAddrOf = [addr] := by
  obtain ⟨g, txh, r, -, -, -, -, hl⟩ := deployContract_some_char env n args l addr h
  subst hl
  simp [receiptAddrOf]

/-- Every artifact-load event concerns the loaded contract, when it concerns
a contract at all. -/
lemma loadArtifact_eventContract (env : Env) (n : String) :
    ∀ e ∈ (loadArtifact env n).1, eventContract e = none ∨ eventContract e = some n :=
  fun e he => by
    rcases loadArtifact_mem env n e he with h | h | ⟨s, h⟩ <;> subst h <;> simp [eventContract]

/-- Every deployment-attempt event concerns the deployed contract, when it
concerns a contract at all. -/
lemma deployContract_eventContract (env : Env) (n : String) (args : List Arg) :
    ∀ e ∈ (deployContract env n args).1,
      eventContract e = none ∨ eventContract e = some n :=
  fun e he => by
    rcases deployContract_mem env n args e he with ⟨s, h⟩ | h | ⟨G, h⟩ | h | h | ⟨a, h⟩ <;>
      subst h <;> simp [eventContract]

/-- No module-level banner event concerns a contract. -/
lemma initEvents_eventContract (env : Env) (a : String) :
    ∀ e ∈ initEvents env a, eventContract e = none := by
  intro e he
  rcases initEvents_mem env a e he with h | h | ⟨s, h⟩ <;> subst h <;> rfl

/-- An artifact load makes no network interaction. -/
lemma loadArtifact_network (env : Env) (n : String) :
    ∀ e ∈ (loadArtifact env n).1, networkContract e = none :=
  fun e he => by
    rcases loadArtifact_mem env n e he with h | h | ⟨s, h⟩ <;> subst h <;> rfl

/-- Every network interaction of a deployment attempt concerns the deployed
contract. -/
lemma deployContract_network (env : Env) (n : String) (args : List Arg) :
    ∀ e ∈ (deployContract env n args).1,
      networkContract e = none ∨ networkContract e = some n :=
  fun e he => by
    rcases deployContract_mem env n args e he with ⟨s, h⟩ | h | ⟨G, h⟩ | h | h | ⟨a, h⟩ <;>
      subst h <;> simp [networkContract]

/-- The module-level banner makes none of the deployment-related network
interactions. -/
lemma initEvents_network (env : Env) (a : String) :
    ∀ e ∈ initEvents env a, networkContract e = none := by
  intro e he
  rcases initEvents_mem env a e he with h | h | ⟨s, h⟩ <;> subst h <;> rfl

/-- The dead connectivity report appears in no artifact-load trace. -/
lemma loadArtifact_no_ncr (env : Env) (n : String) :
    Event.notConnectedReport ∉ (loadArtifact env n).1 := by
  intro he
  rcases loadArtifact_mem env n _ he with h | h | ⟨s, h⟩ <;> simp at h

/-- The dead connectivity report appears in no deployment-attempt trace. -/
lemma deployContract_no_ncr (env : Env) (n : String) (args : List Arg) :
    Event.notConnectedReport ∉ (deployContract env n args).1 := by
  intro he
  rcases deployContract_mem env n args _ he with ⟨s, h⟩ | h | ⟨G, h⟩ | h | h | ⟨a, h⟩ <;>
    simp at h

/-- The dead connectivity report appears in no module-level banner. -/
lemma initEvents_no_ncr (env : Env) (a : String) :
    Event.notConnectedReport ∉ initEvents env a := by
  intro he
  rcases initEvents_mem env a _ he with h | h | ⟨s, h⟩ <;> simp at h

end Deploy

namespace Deploy

/-- A finished run confirmed exactly three deployments, and its single file
write records exactly those addresses under the three contract names; the
addresses are the contract addresses of the mined receipts the node
returned. -/
lemma run_finished_registry (env : Env)
    (h : (runScript env).outcome = Outcome.finished) :
    ∃ a1 a2 a3,
      deployedAddresses (runScript env) = [a1, a2, a3] ∧
      writeLog (runScript env) =
        [[("MyToken", a1), ("DataReview", a2), ("DataBundle", a3)]] ∧
      (∃ args1 t1 r1, (env.deploys "MyToken" args1).submit = SubmitResult.mined t1 r1 ∧
         r1.contractAddress = a1) ∧
      (∃ args2 t2 r2, (env.deploys "DataReview" args2).submit = SubmitResult.mined t2 r2 ∧
         r2.contractAddress = a2) ∧
      (∃ args3 t3 r3, (env.deploys "DataBundle" args3).submit = SubmitResult.mined t3 r3 ∧
         r3.contractAddress = a3) := by
  rcases runScript_cases env with ⟨hc, hrun⟩ | ⟨hc, ha, hrun⟩ |
    ⟨a, rest, hc, ha, hcase⟩
  · rw [hrun] at h; simp at h
  · rw [hrun] at h; simp at h
  rcases hcase with ⟨l1, hl1, hrun⟩ | ⟨l1, ab1, d1, hl1, hd1, hrun⟩ |
    ⟨l1, ab1, d1, a1, hl1, hd1, hcase⟩
  · rw [hrun] at h; simp at h
  · rw [hrun] at h; simp at h
  rcases hcase with ⟨l2, hl2, hrun⟩ | ⟨l2, ab2, d2, hl2, hd2, hrun⟩ |
    ⟨l2, ab2, d2, a2, hl2, hd2, hcase⟩
  · rw [hrun] at h; simp at h
  · rw [hrun] at h; simp at h
  rcases hcase with ⟨l3, hl3, hrun⟩ | ⟨l3, ab3, d3, hl3, hd3, hrun⟩ |
    ⟨l3, ab3, d3, a3, hl3, hd3, hrun⟩
  · rw [hrun] at h; simp at h
  · rw [hrun] at h; simp at h
  obtain ⟨g1, t1, r1, -, hs1, -, hca1, -⟩ := deployContract_some_char env _ _ _ _ hd1
  obtain ⟨g2, t2, r2, -, hs2, -, hca2, -⟩ := deployContract_some_char env _ _ _ _ hd2
  obtain ⟨g3, t3, r3, -, hs3, -, hca3, -⟩ := deployContract_some_char env _ _ _ _ hd3
  have el1 : l1 = (loadArtifact env "MyToken").1 := by rw [hl1]
  have el2 : l2 = (loadArtifact env "DataReview").1 := by rw [hl2]
  have el3 : l3 = (loadArtifact env "DataBundle").1 := by rw [hl3]
  have ed1 := deployContract_receiptMap_some env _ _ _ _ hd1
  have ed2 := deployContract_receiptMap_some env _ _ _ _ hd2
  have ed3 := deployContract_receiptMap_some env _ _ _ _ hd3
  have ew1 : d1 = (deployContract env "MyToken" [Arg.num initial_supply]).1 := by rw [hd1]
  have ew2 : d2 = (deployContract env "DataReview" [Arg.addr a1, Arg.addr a]).1 := by
    rw [hd2]
  have ew3 : d3 = (deployContract env "DataBundle" [Arg.addr a1, Arg.addr a]).1 := by
    rw [hd3]
  refine ⟨a1, a2, a3, ?_, ?_,
    ⟨_, t1, r1, hs1, hca1⟩, ⟨_, t2, r2, hs2, hca2⟩, ⟨_, t3, r3, hs3, hca3⟩⟩
  · rw [hrun]
    simp only [deployedAddresses, List.filterMap_append]
    rw [el1, el2, el3]
    simp [loadArtifact_receiptMap, initEvents_receiptMap, ed1, ed2, ed3,
          postTokenCalls, postReviewCalls, postBundleEvents, receiptAddrOf]
  · rw [hrun]
    simp only [writeLog, List.filterMap_append]
    rw [el1, el2, el3, ew1, ew2, ew3]
    simp [loadArtifact_writeMap, initEvents_writeMap, deployContract_writeMap,
          postTokenCalls, postReviewCalls, postBundleEvents, writeEntriesOf]

/-- A run that did not finish wrote no file. -/
lemma run_not_finished_no_write (env : Env)
    (h : (runScript env).outcome ≠ Outcome.finished) :
    writeLog (runScript env) = [] := by
  rcases runScript_cases env with ⟨hc, hrun⟩ | ⟨hc, ha, hrun⟩ |
    ⟨a, rest, hc, ha, hcase⟩
  · rw [hrun]; simp [writeLog, writeEntriesOf]
  · rw [hrun]; simp [writeLog, writeEntriesOf]
  rcases hcase with ⟨l1, hl1, hrun⟩ | ⟨l1, ab1, d1, hl1, hd1, hrun⟩ |
    ⟨l1, ab1, d1, a1, hl1, hd1, hcase⟩
  · have el1 : l1 = (loadArtifact env "MyToken").1 := by rw [hl1]
    rw [hrun]
    simp [writeLog, List.filterMap_append, el1, loadArtifact_writeMap,
          initEvents_writeMap]
  · have el1 : l1 = (loadArtifact env "MyToken").1 := by rw [hl1]
    have ed1 : d1 = (deployContract env "MyToken" [Arg.num initial_supply]).1 := by
      rw [hd1]
    rw [hrun]
    simp [writeLog, List.filterMap_append, el1, ed1, loadArtifact_writeMap,
          deployContract_writeMap, initEvents_writeMap]
  rcases hcase with ⟨l2, hl2, hrun⟩ | ⟨l2, ab2, d2, hl2, hd2, hrun⟩ |
    ⟨l2, ab2, d2, a2, hl2, hd2, hcase⟩
  · have el1 : l1 = (loadArtifact env "MyToken").1 := by rw [hl1]
    have ed1 : d1 = (deployContract env "MyToken" [Arg.num initial_supply]).1 := by
      rw [hd1]
    have el2 : l2 = (loadArtifact env "DataReview").1 := by rw [hl2]
    rw [hrun]
    simp [writeLog, List.filterMap_append, el1, ed1, el2, loadArtifact_writeMap,
          deployContract_writeMap, initEvents_writeMap, postTokenCalls, writeEntriesOf]
  · have el1 : l1 = (loadArtifact env "MyToken").1 := by rw [hl1]
    have ed1 : d1 = (deployContract env "MyToken" [Arg.num initial_supply]).1 := by
      rw [hd1]
    have el2 : l2 = (loadArtifact env "DataReview").1 := by rw [hl2]
    have ed2 : d2 = (deployContract env "DataReview" [Arg.addr a1, Arg.addr a]).1 := by
      rw [hd2]
    rw [hrun]
    simp [writeLog, List.filterMap_append, el1, ed1, el2, ed2, loadArtifact_writeMap,
          deployContract_writeMap, initEvents_writeMap, postTokenCalls, writeEntriesOf]
  rcases hcase with ⟨l3, hl3, hrun⟩ | ⟨l3, ab3, d3, hl3, hd3, hrun⟩ |
    ⟨l3, ab3, d3, a3, hl3, hd3, hrun⟩
  · have el1 : l1 = (loadArtifact env "MyToken").1 := by rw [hl1]
    have ed1 : d1 = (deployContract env "MyToken" [Arg.num initial_supply]).1 := by
      rw [hd1]
    have el2 : l2 = (loadArtifact env "DataReview").1 := by rw [hl2]
    have ed2 : d2 = (deployContract env "DataReview" [Arg.addr a1, Arg.addr a]).1 := by
      rw [hd2]
    have el3 : l3 = (loadArtifact env "DataBundle").1 := by rw [hl3]
    rw [hrun]
    simp [writeLog, List.filterMap_append, el1, ed1, el2, ed2, el3,
          loadArtifact_writeMap, deployContract_writeMap, initEvents_writeMap,
          postTokenCalls, postReviewCalls, writeEntriesOf]
  · have el1 : l1 = (loadArtifact env "MyToken").1 := by rw [hl1]
    have ed1 : d1 = (deployContract env "MyToken" [Arg.num initial_supply]).1 := by
      rw [hd1]
    have el2 : l2 = (loadArtifact env "DataReview").1 := by rw [hl2]
    have ed2 : d2 = (deployContract env "DataReview" [Arg.addr a1, Arg.addr a]).1 := by
      rw [hd2]
    have el3 : l3 = (loadArtifact env "DataBundle").1 := by rw [hl3]
    have ed3 : d3 = (deployContract env "DataBundle" [Arg.addr a1, Arg.addr a]).1 := by
      rw [hd3]
    rw [hrun]
    simp [writeLog, List.filterMap_append, el1, ed1, el2, ed2, el3, ed3,
          loadArtifact_writeMap, deployContract_writeMap, initEvents_writeMap,
          postTokenCalls, postReviewCalls, writeEntriesOf]
  · rw [hrun] at h
    simp at h

end Deploy

namespace Deploy

/-- Claim C5: the name-to-address map is written to the structured output
file after all three deployments succeed and only then (a run that does not
finish performs no file write; the write event itself models the mode-w open,
which truncates any prior content), and the written map holds exactly the
three entries MyToken, DataReview and DataBundle; when the node only ever
returns non-empty contract addresses in mined receipts (as an Ethereum node
does), each entry maps to a non-empty address. -/
theorem claim5_registry_write (env : Env) :
    ((runScript env).outcome = Outcome.finished →
       ∃ a1 a2 a3,
         writeLog (runScript env) =
           [[("MyToken", a1), ("DataReview", a2), ("DataBundle", a3)]] ∧
         ((∀ n args t r, (env.deploys n args).submit = SubmitResult.mined t r →
             r.contractAddress ≠ "") →
           a1 ≠ "" ∧ a2 ≠ "" ∧ a3 ≠ "")) ∧
    ((runScript env).outcome ≠ Outcome.finished → writeLog (runScript env) = []) := by
  constructor
  · intro h
    obtain ⟨a1, a2, a3, -, hw, ⟨args1, t1, r1, hs1, hca1⟩,
      ⟨args2, t2, r2, hs2, hca2⟩, ⟨args3, t3, r3, hs3, hca3⟩⟩ :=
      run_finished_registry env h
    refine ⟨a1, a2, a3, hw, fun hne => ⟨?_, ?_, ?_⟩⟩
    · rw [← hca1]; exact hne _ _ _ _ hs1
    · rw [← hca2]; exact hne _ _ _ _ hs2
    · rw [← hca3]; exact hne _ _ _ _ hs3
  · exact run_not_finished_no_write env

/-- Concrete witness for C5: in the healthy environment the run finishes and
writes exactly the three named addresses, all non-empty. -/
theorem claim5_witness :
    ∃ a1 a2 a3,
      writeLog (runScript goodEnv) =
        [[("MyToken", a1), ("DataReview", a2), ("DataBundle", a3)]] ∧
      a1 ≠ "" ∧ a2 ≠ "" ∧ a3 ≠ "" := by
  obtain ⟨a1, a2, a3, hw, hne⟩ := (claim5_registry_write goodEnv).1 rfl
  obtain ⟨h1, h2, h3⟩ := hne (by
    intro n args t r hs
    have : r = { status := 1, contractAddress := "0xA" ++ n, blockNumber := 1 } := by
      injection hs with h hr
      exact hr.symm
    subst this
    simp [goodEnv]
    intro hfalse
    have hlen := congrArg String.length hfalse
    simp at hlen
    exact absurd hlen.1 (by decide))
  exact ⟨a1, a2, a3, hw, h1, h2, h3⟩

/-- Claim C8: the deployment sequence is not idempotent.  A finished run
records in the output file exactly the addresses the node minted in that run
(no step consults a prior registry or reuses an address), so when a second
run is given fresh addresses by the chain (creation addresses depend on the
strictly increasing account nonce), the two runs confirm different address
lists and write different files. -/
theorem claim8_not_idempotent (env1 env2 : Env)
    (h1 : (runScript env1).outcome = Outcome.finished)
    (h2 : (runScript env2).outcome = Outcome.finished)
    (hfresh : ∀ x ∈ deployedAddresses (runScript env2),
       x ∉ deployedAddresses (runScript env1)) :
    (∃ a1 a2 a3,
       deployedAddresses (runScript env1) = [a1, a2, a3] ∧
       writeLog (runScript env1) =
         [[("MyToken", a1), ("DataReview", a2), ("DataBundle", a3)]]) ∧
    deployedAddresses (runScript env1) ≠ deployedAddresses (runScript env2) ∧
    writeLog (runScript env1) ≠ writeLog (runScript env2) := by
  obtain ⟨a1, a2, a3, hd1, hw1, -, -, -⟩ := run_finished_registry env1 h1
  obtain ⟨b1, b2, b3, hd2, hw2, -, -, -⟩ := run_finished_registry env2 h2
  have hb1 : b1 ∉ deployedAddresses (runScript env1) := by
    apply hfresh
    rw [hd2]
    simp
  have hb1' : b1 ≠ a1 := by
    intro hEq
    apply hb1
    rw [hd1, hEq]
    simp
  refine ⟨⟨a1, a2, a3, hd1, hw1⟩, ?_, ?_⟩
  · rw [hd1, hd2]
    intro hEq
    injection hEq with hEq1 _
    exact hb1' hEq1.symm
  · rw [hw1, hw2]
    intro hEq
    injection hEq with hEq1 _
    injection hEq1 with hEq2 _
    injection hEq2 with _ hEq3
    exact hb1' hEq3.symm

/-- Concrete witness for C8: the two healthy environments both finish, the
second has fresh addresses, and the runs produce different address lists and
different files. -/
theorem claim8_witness :
    (∃ a1 a2 a3,
       deployedAddresses (runScript goodEnv) = [a1, a2, a3] ∧
       writeLog (runScript goodEnv) =
         [[("MyToken", a1), ("DataReview", a2), ("DataBundle", a3)]]) ∧
    deployedAddresses (runScript goodEnv) ≠ deployedAddresses (runScript goodEnv2) ∧
    writeLog (runScript goodEnv) ≠ writeLog (runScript goodEnv2) :=
  claim8_not_idempotent goodEnv goodEnv2 rfl rfl (by decide)

end Deploy

namespace Deploy

/-- Any deployment-related network interaction of a run concerns a contract
whose artifact load had already succeeded. -/
lemma runScript_network_mem (env : Env) (e : Event) (n : String)
    (he : e ∈ (runScript env).events) (hn : networkContract e = some n) :
    ∃ ab, (loadArtifact env n).2 = some ab := by
  rcases runScript_cases env with ⟨hc, hrun⟩ | ⟨hc, ha, hrun⟩ |
    ⟨a, rest, hc, ha, hcase⟩
  · rw [hrun] at he; simp at he; subst he; simp [networkContract] at hn
  · rw [hrun] at he; simp at he; subst he; simp [networkContract] at hn
  have hd1some : ∀ (l1 : List Event) ab1, loadArtifact env "MyToken" = (l1, some ab1) →
      ∀ e1 ∈ (deployContract env "MyToken" [Arg.num initial_supply]).1,
        networkContract e1 = some n → ∃ ab, (loadArtifact env n).2 = some ab := by
    intro l1 ab1 hl1 e1 he1 hn1
    rcases deployContract_network env _ _ e1 he1 with h0 | h0
    · rw [h0] at hn1; exact absurd hn1 (by simp)
    · rw [h0] at hn1
      injection hn1 with hEq
      subst hEq
      exact ⟨ab1, by rw [hl1]⟩
  have hd2some : ∀ a1 (l2 : List Event) ab2, loadArtifact env "DataReview" = (l2, some ab2) →
      ∀ e1 ∈ (deployContract env "DataReview" [Arg.addr a1, Arg.addr a]).1,
        networkContract e1 = some n → ∃ ab, (loadArtifact env n).2 = some ab := by
    intro a1 l2 ab2 hl2 e1 he1 hn1
    rcases deployContract_network env _ _ e1 he1 with h0 | h0
    · rw [h0] at hn1; exact absurd hn1 (by simp)
    · rw [h0] at hn1
      injection hn1 with hEq
      subst hEq
      exact ⟨ab2, by rw [hl2]⟩
  have hd3some : ∀ a1 (l3 : List Event) ab3, loadArtifact env "DataBundle" = (l3, some ab3) →
      ∀ e1 ∈ (deployContract env "DataBundle" [Arg.addr a1, Arg.addr a]).1,
        networkContract e1 = some n → ∃ ab, (loadArtifact env n).2 = some ab := by
    intro a1 l3 ab3 hl3 e1 he1 hn1
    rcases deployContract_network env _ _ e1 he1 with h0 | h0
    · rw [h0] at hn1; exact absurd hn1 (by simp)
    · rw [h0] at hn1
      injection hn1 with hEq
      subst hEq
      exact ⟨ab3, by rw [hl3]⟩
  have hpost : ∀ (x y z : String), e ∈ postTokenCalls x ∨ e ∈ postReviewCalls y ∨
      e ∈ postBundleEvents x y z → False := by
    intro x y z hmem
    rcases hmem with hm | hm | hm
    · simp [postTokenCalls] at hm
      rcases hm with h0 | h0 | h0 <;> subst h0 <;> simp [networkContract] at hn
    · simp [postReviewCalls] at hm
      rcases hm with h0 | h0 <;> subst h0 <;> simp [networkContract] at hn
    · simp [postBundleEvents] at hm
      rcases hm with h0 | h0 | h0 <;> subst h0 <;> simp [networkContract] at hn
  have hinit : e ∈ initEvents env a → False := by
    intro hm
    have := initEvents_network env a e hm
    rw [this] at hn; exact absurd hn (by simp)
  have hload : ∀ m, e ∈ (loadArtifact env m).1 → False := by
    intro m hm
    have := loadArtifact_network env m e hm
    rw [this] at hn; exact absurd hn (by simp)
  rcases hcase with ⟨l1, hl1, hrun⟩ | ⟨l1, ab1, d1, hl1, hd1, hrun⟩ |
    ⟨l1, ab1, d1, a1, hl1, hd1, hcase⟩
  · rw [hrun] at he; simp only [List.append_assoc, List.mem_append] at he
    have el1 : l1 = (loadArtifact env "MyToken").1 := by rw [hl1]
    rcases he with he | he
    · exact absurd he (fun hm => hinit hm)
    · exact absurd (el1 ▸ he) (hload "MyToken")
  · rw [hrun] at he; simp only [List.append_assoc, List.mem_append] at he
    have el1 : l1 = (loadArtifact env "MyToken").1 := by rw [hl1]
    have ed1 : d1 = (deployContract env "MyToken" [Arg.num initial_supply]).1 := by
      rw [hd1]
    rcases he with he | he | he
    · exact absurd he (fun hm => hinit hm)
    · exact absurd (el1 ▸ he) (hload "MyToken")
    · exact hd1some l1 ab1 hl1 e (ed1 ▸ he) hn
  rcases hcase with ⟨l2, hl2, hrun⟩ | ⟨l2, ab2, d2, hl2, hd2, hrun⟩ |
    ⟨l2, ab2, d2, a2, hl2, hd2, hcase⟩
  · rw [hrun] at he; simp only [List.append_assoc, List.mem_append] at he
    have el1 : l1 = (loadArtifact env "MyToken").1 := by rw [hl1]
    have ed1 : d1 = (deployContract env "MyToken" [Arg.num initial_supply]).1 := by
      rw [hd1]
    have el2 : l2 = (loadArtifact env "DataReview").1 := by rw [hl2]
    rcases he with he | he | he | he | he
    · exact absurd he (fun hm => hinit hm)
    · exact absurd (el1 ▸ he) (hload "MyToken")
    · exact hd1some l1 ab1 hl1 e (ed1 ▸ he) hn
    · exact absurd (Or.inl he) (fun hm => hpost a1 a1 a1 hm)
    · exact absurd (el2 ▸ he) (hload "DataReview")
  · rw [hrun] at he; simp only [List.append_assoc, List.mem_append] at he
    have el1 : l1 = (loadArtifact env "MyToken").1 := by rw [hl1]
    have ed1 : d1 = (deployContract env "MyToken" [Arg.num initial_supply]).1 := by
      rw [hd1]
    have el2 : l2 = (loadArtifact env "DataReview").1 := by rw [hl2]
    have ed2 : d2 = (deployContract env "DataReview" [Arg.addr a1, Arg.addr a]).1 := by
      rw [hd2]
    rcases he with he | he | he | he | he | he
    · exact absurd he (fun hm => hinit hm)
    · exact absurd (el1 ▸ he) (hload "MyToken")
    · exact hd1some l1 ab1 hl1 e (ed1 ▸ he) hn
    · exact absurd (Or.inl he) (fun hm => hpost a1 a1 a1 hm)
    · exact absurd (el2 ▸ he) (hload "DataReview")
    · exact hd2some a1 l2 ab2 hl2 e (ed2 ▸ he) hn
  rcases hcase with ⟨l3, hl3, hrun⟩ | ⟨l3, ab3, d3, hl3, hd3, hrun⟩ |
    ⟨l3, ab3, d3, a3, hl3, hd3, hrun⟩
  · rw [hrun] at he; simp only [List.append_assoc, List.mem_append] at he
    have el1 : l1 = (loadArtifact env "MyToken").1 := by rw [hl1]
    have ed1 : d1 = (deployContract env "MyToken" [Arg.num initial_supply]).1 := by
      rw [hd1]
    have el2 : l2 = (loadArtifact env "DataReview").1 := by rw [hl2]
    have ed2 : d2 = (deployContract env "DataReview" [Arg.addr a1, Arg.addr a]).1 := by
      rw [hd2]
    have el3 : l3 = (loadArtifact env "DataBundle").1 := by rw [hl3]
    rcases he with he | he | he | he | he | he | he | he
    · exact absurd he (fun hm => hinit hm)
    · exact absurd (el1 ▸ he) (hload "MyToken")
    · exact hd1some l1 ab1 hl1 e (ed1 ▸ he) hn
    · exact absurd (Or.inl he) (fun hm => hpost a1 a1 a1 hm)
    · exact absurd (el2 ▸ he) (hload "DataReview")
    · exact hd2some a1 l2 ab2 hl2 e (ed2 ▸ he) hn
    · exact absurd (Or.inr (Or.inl he)) (fun hm => hpost a2 a2 a2 hm)
    · exact absurd (el3 ▸ he) (hload "DataBundle")
  · rw [hrun] at he; simp only [List.append_assoc, List.mem_append] at he
    have el1 : l1 = (loadArtifact env "MyToken").1 := by rw [hl1]
    have ed1 : d1 = (deployContract env "MyToken" [Arg.num initial_supply]).1 := by
      rw [hd1]
    have el2 : l2 = (loadArtifact env "DataReview").1 := by rw [hl2]
    have ed2 : d2 = (deployContract env "DataReview" [Arg.addr a1, Arg.addr a]).1 := by
      rw [hd2]
    have el3 : l3 = (loadArtifact env "DataBundle").1 := by rw [hl3]
    have ed3 : d3 = (deployContract env "DataBundle" [Arg.addr a1, Arg.addr a]).1 := by
      rw [hd3]
    rcases he with he | he | he | he | he | he | he | he | he
    · exact absurd he (fun hm => hinit hm)
    · exact absurd (el1 ▸ he) (hload "MyToken")
    · exact hd1some l1 ab1 hl1 e (ed1 ▸ he) hn
    · exact absurd (Or.inl he) (fun hm => hpost a1 a1 a1 hm)
    · exact absurd (el2 ▸ he) (hload "DataReview")
    · exact hd2some a1 l2 ab2 hl2 e (ed2 ▸ he) hn
    · exact absurd (Or.inr (Or.inl he)) (fun hm => hpost a2 a2 a2 hm)
    · exact absurd (el3 ▸ he) (hload "DataBundle")
    · exact hd3some a1 l3 ab3 hl3 e (ed3 ▸ he) hn
  · rw [hrun] at he; simp only [List.append_assoc, List.mem_append] at he
    have el1 : l1 = (loadArtifact env "MyToken").1 := by rw [hl1]
    have ed1 : d1 = (deployContract env "MyToken" [Arg.num initial_supply]).1 := by
      rw [hd1]
    have el2 : l2 = (loadArtifact env "DataReview").1 := by rw [hl2]
    have ed2 : d2 = (deployContract env "DataReview" [Arg.addr a1, Arg.addr a]).1 := by
      rw [hd2]
    have el3 : l3 = (loadArtifact env "DataBundle").1 := by rw [hl3]
    have ed3 : d3 = (deployContract env "DataBundle" [Arg.addr a1, Arg.addr a]).1 := by
      rw [hd3]
    rcases he with he | he | he | he | he | he | he | he | he | he
    · exact absurd he (fun hm => hinit hm)
    · exact absurd (el1 ▸ he) (hload "MyToken")
    · exact hd1some l1 ab1 hl1 e (ed1 ▸ he) hn
    · exact absurd (Or.inl he) (fun hm => hpost a1 a1 a1 hm)
    · exact absurd (el2 ▸ he) (hload "DataReview")
    · exact hd2some a1 l2 ab2 hl2 e (ed2 ▸ he) hn
    · exact absurd (Or.inr (Or.inl he)) (fun hm => hpost a2 a2 a2 hm)
    · exact absurd (el3 ▸ he) (hload "DataBundle")
    · exact hd3some a1 l3 ab3 hl3 e (ed3 ▸ he) hn
    · exact absurd (Or.inr (Or.inr he)) (fun hm => hpost a1 a2 a3 hm)

end Deploy

namespace Deploy

/-- Claim C4: when the MyToken stage fails at any point (artifact load
failure, which exits with status 0, or deployment failure, which exits with
status 1), no event of the whole run concerns DataReview or DataBundle: no
artifact read attempt, no transaction construction or gas estimation, no
submission, and no confirmation for either of them ever occurs. -/
theorem claim4_short_circuit (env : Env)
    (h : (loadArtifact env "MyToken").2 = none ∨
         (deployContract env "MyToken" [Arg.num initial_supply]).2 = none) :
    ∀ e ∈ (runScript env).events,
      eventContract e ≠ some "DataReview" ∧ eventContract e ≠ some "DataBundle" := by
  rcases runScript_cases env with ⟨hc, hrun⟩ | ⟨hc, ha, hrun⟩ |
    ⟨a, rest, hc, ha, hcase⟩
  · intro e he; rw [hrun] at he; simp at he; subst he
    exact ⟨by simp [eventContract], by simp [eventContract]⟩
  · intro e he; rw [hrun] at he; simp at he; subst he
    exact ⟨by simp [eventContract], by simp [eventContract]⟩
  rcases hcase with ⟨l1, hl1, hrun⟩ | ⟨l1, ab1, d1, hl1, hd1, hrun⟩ |
    ⟨l1, ab1, d1, a1, hl1, hd1, hcase⟩
  · intro e he
    rw [hrun] at he; simp only [List.append_assoc, List.mem_append] at he
    have el1 : l1 = (loadArtifact env "MyToken").1 := by rw [hl1]
    rcases he with he | he
    · have h0 := initEvents_eventContract env a e he
      exact ⟨by simp [h0], by simp [h0]⟩
    · rcases loadArtifact_eventContract env "MyToken" e (el1 ▸ he) with h0 | h0
      · exact ⟨by simp [h0], by simp [h0]⟩
      · refine ⟨by rw [h0]; intro hx; injection hx with hx; exact absurd hx (by decide),
                by rw [h0]; intro hx; injection hx with hx; exact absurd hx (by decide)⟩
  · intro e he
    rw [hrun] at he; simp only [List.append_assoc, List.mem_append] at he
    have el1 : l1 = (loadArtifact env "MyToken").1 := by rw [hl1]
    have ed1 : d1 = (deployContract env "MyToken" [Arg.num initial_supply]).1 := by
      rw [hd1]
    rcases he with he | he | he
    · have h0 := initEvents_eventContract env a e he
      exact ⟨by simp [h0], by simp [h0]⟩
    · rcases loadArtifact_eventContract env "MyToken" e (el1 ▸ he) with h0 | h0
      · exact ⟨by simp [h0], by simp [h0]⟩
      · refine ⟨by rw [h0]; intro hx; injection hx with hx; exact absurd hx (by decide),
                by rw [h0]; intro hx; injection hx with hx; exact absurd hx (by decide)⟩
    · rcases deployContract_eventContract env "MyToken" _ e (ed1 ▸ he) with h0 | h0
      · exact ⟨by simp [h0], by simp [h0]⟩
      · refine ⟨by rw [h0]; intro hx; injection hx with hx; exact absurd hx (by decide),
                by rw [h0]; intro hx; injection hx with hx; exact absurd hx (by decide)⟩
  · rcases h with h | h
    · rw [hl1] at h; simp at h
    · rw [hd1] at h; simp at h

/-- Concrete witness for C4: in the environment whose MyToken deployment
reverts, the hypothesis holds and the conclusion applies to the MyToken
submission event of that run. -/
theorem claim4_witness :
    eventContract (Event.submitTx "MyToken" [Arg.num initial_supply] 130000) ≠
      some "DataReview" ∧
    eventContract (Event.submitTx "MyToken" [Arg.num initial_supply] 130000) ≠
      some "DataBundle" :=
  claim4_short_circuit revertEnv (Or.inr (by decide)) _ (by decide)

/-- Claim C6: `load_contract_artifact` reports the error and terminates the
process (the `none` result is the bare `exit()` of the script, status 0) when
the descriptor file is missing, when the descriptor is not valid JSON, or
when the bytecode file is missing; it reads each file at most once (no
retry); a missing descriptor for a contract means no network interaction for
that contract in the whole run; and a missing descriptor for any of the
three contracts keeps the run from completing. -/
theorem claim6_artifact_failures (env : Env) (name : String) :
    (env.abiFile name = none →
       loadArtifact env name =
         ([Event.print ("Attempting to load ABI for " ++ name),
           Event.loadAbiAttempt name,
           Event.print ("ERROR: ABI file for " ++ name ++ " not found in build directory.")],
          none)) ∧
    (∀ c, env.abiFile name = some c → env.abiParses c = false →
       loadArtifact env name =
         ([Event.print ("Attempting to load ABI for " ++ name),
           Event.loadAbiAttempt name,
           Event.print ("ERROR: Could not parse JSON for " ++ name ++ ".")],
          none)) ∧
    (∀ c, env.abiFile name = some c → env.abiParses c = true → env.binFile name = none →
       loadArtifact env name =
         ([Event.print ("Attempting to load ABI for " ++ name),
           Event.loadAbiAttempt name,
           Event.print ("SUCCESS: Loaded ABI for " ++ name ++ "."),
           Event.print ("Attempting to load Bytecode for " ++ name),
           Event.loadBinAttempt name,
           Event.print ("ERROR: Bytecode file for " ++ name ++ " not found in build directory.")],
          none)) ∧
    ((loadArtifact env name).1.count (Event.loadAbiAttempt name) = 1) ∧
    ((loadArtifact env name).1.count (Event.loadBinAttempt name) ≤ 1) ∧
    (env.abiFile name = none →
       ∀ e ∈ (runScript env).events, networkContract e ≠ some name) ∧
    ((env.abiFile "MyToken" = none ∨ env.abiFile "DataReview" = none ∨
      env.abiFile "DataBundle" = none) →
       (runScript env).outcome ≠ Outcome.finished) := by
  refine ⟨?_, ?_, ?_, ?_, ?_, ?_, ?_⟩
  · intro ha; simp [loadArtifact, ha]
  · intro c ha hp; simp [loadArtifact, ha, hp]
  · intro c ha hp hb; simp [loadArtifact, ha, hp, hb]
  · rcases ha : env.abiFile name with _ | c
    · simp [loadArtifact, ha, List.count_cons]
    · by_cases hp : env.abiParses c = true
      · rcases hb : env.binFile name with _ | b
        · simp [loadArtifact, ha, hp, hb, List.count_cons]
        · simp [loadArtifact, ha, hp, hb, List.count_cons]
      · simp [loadArtifact, ha, hp, List.count_cons]
  · rcases ha : env.abiFile name with _ | c
    · simp [loadArtifact, ha, List.count_cons]
    · by_cases hp : env.abiParses c = true
      · rcases hb : env.binFile name with _ | b
        · simp [loadArtifact, ha, hp, hb, List.count_cons]
        · simp [loadArtifact, ha, hp, hb, List.count_cons]
      · simp [loadArtifact, ha, hp, List.count_cons]
  · intro ha e he
    intro hEq
    obtain ⟨ab, hsome⟩ := runScript_network_mem env e name he hEq
    rw [show loadArtifact env name =
        ([Event.print ("Attempting to load ABI for " ++ name),
          Event.loadAbiAttempt name,
          Event.print ("ERROR: ABI file for " ++ name ++ " not found in build directory.")],
         none) from by simp [loadArtifact, ha]] at hsome
    simp at hsome
  · intro hd hfin
    rcases runScript_cases env with ⟨hc, hrun⟩ | ⟨hc, ha, hrun⟩ |
      ⟨a, rest, hc, ha, hcase⟩
    · rw [hrun] at hfin; simp at hfin
    · rw [hrun] at hfin; simp at hfin
    rcases hcase with ⟨l1, hl1, hrun⟩ | ⟨l1, ab1, d1, hl1, hd1, hrun⟩ |
      ⟨l1, ab1, d1, a1, hl1, hd1, hcase⟩
    · rw [hrun] at hfin; simp at hfin
    · rw [hrun] at hfin; simp at hfin
    rcases hcase with ⟨l2, hl2, hrun⟩ | ⟨l2, ab2, d2, hl2, hd2, hrun⟩ |
      ⟨l2, ab2, d2, a2, hl2, hd2, hcase⟩
    · rw [hrun] at hfin; simp at hfin
    · rw [hrun] at hfin; simp at hfin
    rcases hcase with ⟨l3, hl3, hrun⟩ | ⟨l3, ab3, d3, hl3, hd3, hrun⟩ |
      ⟨l3, ab3, d3, a3, hl3, hd3, hrun⟩
    · rw [hrun] at hfin; simp at hfin
    · rw [hrun] at hfin; simp at hfin
    obtain ⟨c1, b1, ha1, -, -, -, -⟩ := loadArtifact_some_char env _ _ _ hl1
    obtain ⟨c2, b2, ha2, -, -, -, -⟩ := loadArtifact_some_char env _ _ _ hl2
    obtain ⟨c3, b3, ha3, -, -, -, -⟩ := loadArtifact_some_char env _ _ _ hl3
    rcases hd with hd | hd | hd
    · rw [hd] at ha1; exact absurd ha1 (by simp)
    · rw [hd] at ha2; exact absurd ha2 (by simp)
    · rw [hd] at ha3; exact absurd ha3 (by simp)

/-- Concrete witness for C6: with the empty build directory the MyToken load
fails with the report and the exit marker, the run cannot finish, and the
ABI read-attempt event of that run is no network interaction for MyToken. -/
theorem claim6_witness :
    loadArtifact missingAbiEnv "MyToken" =
      ([Event.print ("Attempting to load ABI for " ++ "MyToken"),
        Event.loadAbiAttempt "MyToken",
        Event.print ("ERROR: ABI file for " ++ "MyToken" ++ " not found in build directory.")],
       none) ∧
    (runScript missingAbiEnv).outcome ≠ Outcome.finished ∧
    networkContract (Event.loadAbiAttempt "MyToken") ≠ some "MyToken" :=
  ⟨(claim6_artifact_failures missingAbiEnv "MyToken").1 rfl,
   (claim6_artifact_failures missingAbiEnv "MyToken").2.2.2.2.2.2 (Or.inl rfl),
   (claim6_artifact_failures missingAbiEnv "MyToken").2.2.2.2.2.1 rfl
     (Event.loadAbiAttempt "MyToken") (by decide)⟩

end Deploy

namespace Deploy

/-- Claim C7: once gas estimation succeeded, the submitted creation
transaction carries a gas limit of exactly the estimate plus 100000 units —
the submission event of the deployment attempt exists and its gas field can
be nothing else. -/
theorem claim7_gas_buffer (env : Env) (name : String) (args : List Arg) (g G : Nat)
    (he : (env.deploys name args).estimate = some g) :
    Event.submitTx name args G ∈ (deployContract env name args).1 ↔ G = g + 100000 := by
  constructor
  · intro hmem
    rcases hsub : (env.deploys name args).submit with m | ⟨txh, r⟩
    · simp [deployContract, fatalPrint, he, hsub] at hmem
      exact hmem
    · by_cases h0 : r.status = 0
      · simp [deployContract, fatalPrint, he, hsub, h0] at hmem
        rcases hmem with hmem | hmem
        · exact hmem
        · obtain ⟨s, hs⟩ := traceDiagnostic_mem_print _ _ hmem
          exact absurd hs (by simp)
      · simp [deployContract, fatalPrint, he, hsub, h0] at hmem
        exact hmem
  · intro hG
    subst hG
    rcases hsub : (env.deploys name args).submit with m | ⟨txh, r⟩
    · simp [deployContract, fatalPrint, he, hsub]
    · by_cases h0 : r.status = 0
      · simp [deployContract, fatalPrint, he, hsub, h0]
      · simp [deployContract, fatalPrint, he, hsub, h0]

/-- Concrete witness for C7: in the healthy environment (estimate 50000) the
submission carries gas 150000. -/
theorem claim7_witness :
    Event.submitTx "MyToken" [Arg.num initial_supply] 150000 ∈
      (deployContract goodEnv "MyToken" [Arg.num initial_supply]).1 ↔
    150000 = 50000 + 100000 :=
  claim7_gas_buffer goodEnv "MyToken" [Arg.num initial_supply] 50000 150000 rfl

/-- Every event of a run comes from one of the script stages: the bare
account read, the module-level banner, an artifact load, a deployment
attempt, or the read-back / sleep / file-write block after a success. -/
lemma runScript_mem (env : Env) (e : Event) (he : e ∈ (runScript env).events) :
    e = Event.readAccounts ∨ (∃ a, e ∈ initEvents env a) ∨
    (∃ m, e ∈ (loadArtifact env m).1) ∨
    (∃ m args, e ∈ (deployContract env m args).1) ∨
    (∃ x y z, e ∈ postTokenCalls x ∨ e ∈ postReviewCalls y ∨
       e ∈ postBundleEvents x y z) := by
  rcases runScript_cases env with ⟨hc, hrun⟩ | ⟨hc, ha, hrun⟩ |
    ⟨a, rest, hc, ha, hcase⟩
  · rw [hrun] at he; simp at he; exact Or.inl he
  · rw [hrun] at he; simp at he; exact Or.inl he
  rcases hcase with ⟨l1, hl1, hrun⟩ | ⟨l1, ab1, d1, hl1, hd1, hrun⟩ |
    ⟨l1, ab1, d1, a1, hl1, hd1, hcase⟩
  · rw [hrun] at he; simp only [List.append_assoc, List.mem_append] at he
    have el1 : l1 = (loadArtifact env "MyToken").1 := by rw [hl1]
    rcases he with he | he
    · exact Or.inr (Or.inl ⟨a, he⟩)
    · exact Or.inr (Or.inr (Or.inl ⟨"MyToken", el1 ▸ he⟩))
  · rw [hrun] at he; simp only [List.append_assoc, List.mem_append] at he
    have el1 : l1 = (loadArtifact env "MyToken").1 := by rw [hl1]
    have ed1 : d1 = (deployContract env "MyToken" [Arg.num initial_supply]).1 := by
      rw [hd1]
    rcases he with he | he | he
    · exact Or.inr (Or.inl ⟨a, he⟩)
    · exact Or.inr (Or.inr (Or.inl ⟨"MyToken", el1 ▸ he⟩))
    · exact Or.inr (Or.inr (Or.inr (Or.inl ⟨"MyToken", _, ed1 ▸ he⟩)))
  rcases hcase with ⟨l2, hl2, hrun⟩ | ⟨l2, ab2, d2, hl2, hd2, hrun⟩ |
    ⟨l2, ab2, d2, a2, hl2, hd2, hcase⟩
  · rw [hrun] at he; simp only [List.append_assoc, List.mem_append] at he
    have el1 : l1 = (loadArtifact env "MyToken").1 := by rw [hl1]
    have ed1 : d1 = (deployContract env "MyToken" [Arg.num initial_supply]).1 := by
      rw [hd1]
    have el2 : l2 = (loadArtifact env "DataReview").1 := by rw [hl2]
    rcases he with he | he | he | he | he
    · exact Or.inr (Or.inl ⟨a, he⟩)
    · exact Or.inr (Or.inr (Or.inl ⟨"MyToken", el1 ▸ he⟩))
    · exact Or.inr (Or.inr (Or.inr (Or.inl ⟨"MyToken", _, ed1 ▸ he⟩)))
    · exact Or.inr (Or.inr (Or.inr (Or.inr ⟨a1, a1, a1, Or.inl he⟩)))
    · exact Or.inr (Or.inr (Or.inl ⟨"DataReview", el2 ▸ he⟩))
  · rw [hrun] at he; simp only [List.append_assoc, List.mem_append] at he
    have el1 : l1 = (loadArtifact env "MyToken").1 := by rw [hl1]
    have ed1 : d1 = (deployContract env "MyToken" [Arg.num initial_supply]).1 := by
      rw [hd1]
    have el2 : l2 = (loadArtifact env "DataReview").1 := by rw [hl2]
    have ed2 : d2 = (deployContract env "DataReview" [Arg.addr a1, Arg.addr a]).1 := by
      rw [hd2]
    rcases he with he | he | he | he | he | he
    · exact Or.inr (Or.inl ⟨a, he⟩)
    · exact Or.inr (Or.inr (Or.inl ⟨"MyToken", el1 ▸ he⟩))
    · exact Or.inr (Or.inr (Or.inr (Or.inl ⟨"MyToken", _, ed1 ▸ he⟩)))
    · exact Or.inr (Or.inr (Or.inr (Or.inr ⟨a1, a1, a1, Or.inl he⟩)))
    · exact Or.inr (Or.inr (Or.inl ⟨"DataReview", el2 ▸ he⟩))
    · exact Or.inr (Or.inr (Or.inr (Or.inl ⟨"DataReview", _, ed2 ▸ he⟩)))
  rcases hcase with ⟨l3, hl3, hrun⟩ | ⟨l3, ab3, d3, hl3, hd3, hrun⟩ |
    ⟨l3, ab3, d3, a3, hl3, hd3, hrun⟩
  · rw [hrun] at he; simp only [List.append_assoc, List.mem_append] at he
    have el1 : l1 = (loadArtifact env "MyToken").1 := by rw [hl1]
    have ed1 : d1 = (deployContract env "MyToken" [Arg.num initial_supply]).1 := by
      rw [hd1]
    have el2 : l2 = (loadArtifact env "DataReview").1 := by rw [hl2]
    have ed2 : d2 = (deployContract env "DataReview" [Arg.addr a1, Arg.addr a]).1 := by
      rw [hd2]
    have el3 : l3 = (loadArtifact env "DataBundle").1 := by rw [hl3]
    rcases he with he | he | he | he | he | he | he | he
    · exact Or.inr (Or.inl ⟨a, he⟩)
    · exact Or.inr (Or.inr (Or.inl ⟨"MyToken", el1 ▸ he⟩))
    · exact Or.inr (Or.inr (Or.inr (Or.inl ⟨"MyToken", _, ed1 ▸ he⟩)))
    · exact Or.inr (Or.inr (Or.inr (Or.inr ⟨a1, a1, a1, Or.inl he⟩)))
    · exact Or.inr (Or.inr (Or.inl ⟨"DataReview", el2 ▸ he⟩))
    · exact Or.inr (Or.inr (Or.inr (Or.inl ⟨"DataReview", _, ed2 ▸ he⟩)))
    · exact Or.inr (Or.inr (Or.inr (Or.inr ⟨a2, a2, a2, Or.inr (Or.inl he)⟩)))
    · exact Or.inr (Or.inr (Or.inl ⟨"DataBundle", el3 ▸ he⟩))
  · rw [hrun] at he; simp only [List.append_assoc, List.mem_append] at he
    have el1 : l1 = (loadArtifact env "MyToken").1 := by rw [hl1]
    have ed1 : d1 = (deployContract env "MyToken" [Arg.num initial_supply]).1 := by
      rw [hd1]
    have el2 : l2 = (loadArtifact env "DataReview").1 := by rw [hl2]
    have ed2 : d2 = (deployContract env "DataReview" [Arg.addr a1, Arg.addr a]).1 := by
      rw [hd2]
    have el3 : l3 = (loadArtifact env "DataBundle").1 := by rw [hl3]
    have ed3 : d3 = (deployContract env "DataBundle" [Arg.addr a1, Arg.addr a]).1 := by
      rw [hd3]
    rcases he with he | he | he | he | he | he | he | he | he
    · exact Or.inr (Or.inl ⟨a, he⟩)
    · exact Or.inr (Or.inr (Or.inl ⟨"MyToken", el1 ▸ he⟩))
    · exact Or.inr (Or.inr (Or.inr (Or.inl ⟨"MyToken", _, ed1 ▸ he⟩)))
    · exact Or.inr (Or.inr (Or.inr (Or.inr ⟨a1, a1, a1, Or.inl he⟩)))
    · exact Or.inr (Or.inr (Or.inl ⟨"DataReview", el2 ▸ he⟩))
    · exact Or.inr (Or.inr (Or.inr (Or.inl ⟨"DataReview", _, ed2 ▸ he⟩)))
    · exact Or.inr (Or.inr (Or.inr (Or.inr ⟨a2, a2, a2, Or.inr (Or.inl he)⟩)))
    · exact Or.inr (Or.inr (Or.inl ⟨"DataBundle", el3 ▸ he⟩))
    · exact Or.inr (Or.inr (Or.inr (Or.inl ⟨"DataBundle", _, ed3 ▸ he⟩)))
  · rw [hrun] at he; simp only [List.append_assoc, List.mem_append] at he
    have el1 : l1 = (loadArtifact env "MyToken").1 := by rw [hl1]
    have ed1 : d1 = (deployContract env "MyToken" [Arg.num initial_supply]).1 := by
      rw [hd1]
    have el2 : l2 = (loadArtifact env "DataReview").1 := by rw [hl2]
    have ed2 : d2 = (deployContract env "DataReview" [Arg.addr a1, Arg.addr a]).1 := by
      rw [hd2]
    have el3 : l3 = (loadArtifact env "DataBundle").1 := by rw [hl3]
    have ed3 : d3 = (deployContract env "DataBundle" [Arg.addr a1, Arg.addr a]).1 := by
      rw [hd3]
    rcases he with he | he | he | he | he | he | he | he | he | he
    · exact Or.inr (Or.inl ⟨a, he⟩)
    · exact Or.inr (Or.inr (Or.inl ⟨"MyToken", el1 ▸ he⟩))
    · exact Or.inr (Or.inr (Or.inr (Or.inl ⟨"MyToken", _, ed1 ▸ he⟩)))
    · exact Or.inr (Or.inr (Or.inr (Or.inr ⟨a1, a1, a1, Or.inl he⟩)))
    · exact Or.inr (Or.inr (Or.inl ⟨"DataReview", el2 ▸ he⟩))
    · exact Or.inr (Or.inr (Or.inr (Or.inl ⟨"DataReview", _, ed2 ▸ he⟩)))
    · exact Or.inr (Or.inr (Or.inr (Or.inr ⟨a2, a2, a2, Or.inr (Or.inl he)⟩)))
    · exact Or.inr (Or.inr (Or.inl ⟨"DataBundle", el3 ▸ he⟩))
    · exact Or.inr (Or.inr (Or.inr (Or.inl ⟨"DataBundle", _, ed3 ▸ he⟩)))
    · exact Or.inr (Or.inr (Or.inr (Or.inr ⟨a1, a2, a3, Or.inr (Or.inr he)⟩)))

/-- Claim C10: the script reads the account list (line 10) before the
connectivity check (line 12), so an unreachable node makes the run die with
an unhandled exception at the account read, and the error branch of the
`is_connected()` guard can never run — its report appears in no run over any
environment. -/
theorem claim10_dead_guard (env : Env) :
    Event.notConnectedReport ∉ (runScript env).events ∧
    (env.connected = false →
       runScript env = ⟨[Event.readAccounts],
         Outcome.uncaught "ConnectionError: node unreachable"⟩) := by
  constructor
  · intro he
    rcases runScript_mem env _ he with h | ⟨a, h⟩ | ⟨m, h⟩ | ⟨m, args, h⟩ |
      ⟨x, y, z, h | h | h⟩
    · simp at h
    · exact initEvents_no_ncr env a h
    · exact loadArtifact_no_ncr env m h
    · exact deployContract_no_ncr env m args h
    · simp [postTokenCalls] at h
    · simp [postReviewCalls] at h
    · simp [postBundleEvents] at h
  · intro hc
    rcases runScript_cases env with ⟨hc', hrun⟩ | ⟨hc', ha, hrun⟩ |
      ⟨a, rest, hc', ha, hcase⟩
    · exact hrun
    · exact absurd (hc'.symm.trans hc) (by decide)
    · exact absurd (hc'.symm.trans hc) (by decide)

/-- Concrete witness for C10: the unreachable-node environment dies at the
account read with the connection error, and its run never prints the guard
report. -/
theorem claim10_witness :
    Event.notConnectedReport ∉ (runScript disconnectedEnv).events ∧
    runScript disconnectedEnv = ⟨[Event.readAccounts],
      Outcome.uncaught "ConnectionError: node unreachable"⟩ :=
  ⟨(claim10_dead_guard disconnectedEnv).1, (claim10_dead_guard disconnectedEnv).2 rfl⟩

end Deploy

namespace Deploy

/-- Claim C3: on a receipt with status 0 the deployment attempt prints the
revert report, issues the diagnostic trace call whose output is appended
verbatim, and fails (its `none` result is the `exit(1)` of the broad except
clause); the diagnostic itself prints the decoded reason when the payload
starts with the `Error(string)` selector, the raw payload otherwise, the
trace error message as fallback, and a caught-and-logged line when the trace
raises — so a raising trace never escapes; and reaching a reverted MyToken
deployment in a full run terminates the process with exit status 1. -/
theorem claim3_revert_diagnostic (env : Env) (name : String) (args : List Arg)
    (g : Nat) (txh : String) (r : Receipt)
    (he : (env.deploys name args).estimate = some g)
    (hs : (env.deploys name args).submit = SubmitResult.mined txh r)
    (h0 : r.status = 0) :
    deployContract env name args =
      ([Event.print ("Attempting to deploy contract " ++ name),
        Event.estimateCall name args,
        Event.print ("Estimated gas for deployment: " ++ Nat.repr g ++
                     ". Using " ++ Nat.repr (g + 100000) ++ " gas."),
        Event.submitTx name args (g + 100000),
        Event.print ("Deployment transaction sent. Hash: " ++ txh),
        Event.waitReceipt name,
        Event.print ("ERROR: Contract deployment transaction reverted. Hash: " ++ txh),
        Event.traceCall name] ++
       traceDiagnostic (env.deploys name args).traceRes ++
       [fatalPrint "Contract deployment failed due to revert."], none) ∧
    (∀ m, traceDiagnostic (TraceResult.raises m) =
       [Event.print ("Could not trace transaction for revert reason: " ++ m)]) ∧
    (∀ s err reason, s ≠ "" → s.startsWith "0x08c379a0" = true →
       decodeRevertPayload s = some reason →
       traceDiagnostic (TraceResult.result (some s) err) =
         [Event.print ("Ganache Revert Reason: " ++ reason)]) ∧
    (∀ s err, s ≠ "" → s.startsWith "0x08c379a0" = false →
       traceDiagnostic (TraceResult.result (some s) err) =
         [Event.print ("Ganache Raw Revert Data: " ++ s)]) ∧
    (∀ m, traceDiagnostic (TraceResult.result none (some m)) =
       [Event.print ("Ganache Error Message: " ++ m)]) ∧
    (∀ env2 s rest c1 b1 g2 t2 r2,
       env2.connected = true → env2.accounts = s :: rest →
       env2.abiFile "MyToken" = some c1 → env2.abiParses c1 = true →
       env2.binFile "MyToken" = some b1 →
       (env2.deploys "MyToken" [Arg.num initial_supply]).estimate = some g2 →
       (env2.deploys "MyToken" [Arg.num initial_supply]).submit =
         SubmitResult.mined t2 r2 →
       r2.status = 0 →
       (runScript env2).outcome = Outcome.exited 1) := by
  refine ⟨?_, ?_, ?_, ?_, ?_, ?_⟩
  · simp [deployContract, fatalPrint, he, hs, h0]
  · intro m; simp [traceDiagnostic]
  · intro s err reason hne hsw hdec
    simp [traceDiagnostic, hne, hsw, hdec]
  · intro s err hne hsw
    simp [traceDiagnostic, hne, hsw]
  · intro m; simp [traceDiagnostic]
  · intro env2 s rest c1 b1 g2 t2 r2 hc ha habi hparse hbin hest hsub hst
    simp [runScript, scriptInit, mainRun, loadArtifact, deployContract, fatalPrint,
          hc, ha, habi, hparse, hbin, hest, hsub, hst]

/-- Concrete witness for C3: in the reverting environment the MyToken
deployment attempt fails and the whole run exits with status 1. -/
theorem claim3_witness :
    (deployContract revertEnv "MyToken" [Arg.num initial_supply]).2 = none ∧
    (runScript revertEnv).outcome = Outcome.exited 1 := by
  have h := claim3_revert_diagnostic revertEnv "MyToken" [Arg.num initial_supply]
    30000 "0xdead" { status := 0, contractAddress := "", blockNumber := 2 } rfl rfl rfl
  refine ⟨?_, ?_⟩
  · rw [h.1]
  · exact h.2.2.2.2.2 revertEnv "0xdeployer" [] "[]" "6080 " 30000 "0xdead"
      { status := 0, contractAddress := "", blockNumber := 2 }
      rfl rfl rfl rfl rfl rfl rfl rfl

/-- Claim C2 exhibit: with the node reachable and the MyToken descriptor file
missing, the script prints the ERROR report and then calls the bare `exit()`
of `load_contract_artifact` — the process terminates with exit status 0, not
a non-zero status. -/
theorem claim2_missing_artifact_exit_status :
    (runScript missingAbiEnv).outcome = Outcome.exited 0 ∧
    Event.print ("ERROR: ABI file for " ++ "MyToken" ++ " not found in build directory.")
      ∈ (runScript missingAbiEnv).events := by
  constructor
  · rfl
  · decide

end Deploy

namespace Visualise

/-- Rebuilding a string from its character list gives the string back. -/
lemma mk_data (s : String) : String.mk s.data = s := rfl

/-- A list is a prefix of itself followed by anything. -/
lemma isPrefixOf_append_self (l t : List Char) : l.isPrefixOf (l ++ t) = true := by
  induction l with
  | nil => simp
  | cons a as ih => simp [List.isPrefixOf_cons₂, ih]

/-- Claim C9: the app registers exactly two routes — the static mount of the
`visualisation` directory and the GET of the root returning the fixed HTML
page with media type `text/html`; dispatch sends the root to that page,
sends every path under the mount to the corresponding file of the static
directory, and answers every other path with a 404 — no further API
exists. -/
theorem claim9_static_routes :
    appRoutes = [RouteSpec.mountStatic "/visualisation" STATIC_DIR "visualisation",
                 RouteSpec.getRoute "/" read_root] ∧
    handleRequest "/" =
      HttpResult.fileResp ⟨"visualisation/marketplace_visualiser.html", some "text/html"⟩ ∧
    (∀ f : String, handleRequest ("/visualisation/" ++ f) =
       HttpResult.fileResp ⟨"visualisation/" ++ f, none⟩) ∧
    (∀ p : String, p ≠ "/" → ("/visualisation/".data).isPrefixOf p.data = false →
       handleRequest p = HttpResult.notFound) := by
  refine ⟨rfl, by decide, ?_, ?_⟩
  · intro f
    have h1 : ("/visualisation".data ++ ['/']) = "/visualisation/".data := by decide
    have h2 : subPathAfter "/visualisation" ("/visualisation/" ++ f) = f := by
      simp only [subPathAfter, String.data_append]
      rw [List.drop_left'
        (show ("/visualisation/".data).length = "/visualisation".data.length + 1 by decide)]
    have hpre : ("/visualisation".data ++ ['/']).isPrefixOf
        (("/visualisation/" ++ f).data) = true := by
      rw [h1, String.data_append]
      exact isPrefixOf_append_self _ _
    simp only [handleRequest, dispatch, appRoutes, routeMatches, hpre, if_true, h2]
    rw [show STATIC_DIR ++ "/" ++ f = "visualisation/" ++ f from by
      rw [show STATIC_DIR ++ "/" = "visualisation/" from by decide]]
  · intro p hp hpre
    have h1 : ("/visualisation".data ++ ['/']) = "/visualisation/".data := by decide
    simp only [handleRequest, dispatch, appRoutes, routeMatches, h1, hpre]
    simp [hp]

/-- Concrete witness for C9: a file under the mount resolves to the static
directory, an unrelated path gets a 404. -/
theorem claim9_witness :
    handleRequest ("/visualisation/" ++ "app.js") =
      HttpResult.fileResp ⟨"visualisation/" ++ "app.js", none⟩ ∧
    handleRequest "/about" = HttpResult.notFound :=
  ⟨claim9_static_routes.2.2.1 "app.js",
   claim9_static_routes.2.2.2 "/about" (by decide) (by decide)⟩

end Visualise
